import Mathlib

/-!
# GRChombo: `ChomboParameters::read_params`

A shallow embedding of `Source/GRChomboCore/ChomboParameters.hpp`.

* `read_params` is a member function that mutates `this`; here it takes the object state
  before the call (`self`) and returns the state after it.
* `CH_assert` and a `load` of an absent key without default abort the program; here they
  return `Except.error`.
* C++ `int` values are `Int`.  The only arithmetic on them is `Ni_full / 2`, `Ni_full % 2`,
  `Ni - 1` and `ivN.max() + 1` on values read from the parameter file, none of which can
  leave the range of `int` on a path that passes the assertions (all counts are positive
  there).  `/` and `%` are the truncating `Int.tdiv` and `Int.tmod`.
* C++ `double` values are rationals `ℚ`, in two readings.  `read_params` computes on them in
  exact arithmetic: the reading for the statements made in exact rational arithmetic and for
  those in which no floating-point operation takes part.  `read_params_double` is the same
  function with every floating-point operation (lines 157, 159, 163, 168-169 and 178) rounded
  to the nearest IEEE binary64 value by `round_double`; the two share the integer stages
  (lines 21-142).
* Output to `pout()` and `write_boundary_conditions` only log and are left out.
-/

namespace GRChombo

/-- Modelled from the spec: the number of space dimensions `CH_SPACEDIM` is a compile-time
constant of the Chombo build that is not under `src/`; the spec fixes three axes
(`isPeriodic:bool[3]`, keys `N1`, `N2`, `N3`). -/
abbrev CH_SPACEDIM : Nat := 3

/-- The ways in which `read_params` aborts: a violated `CH_assert`, a required key that is
absent, and the `std::length_error` that a `std::vector` of negative size throws. -/
inductive ConfigError
  | AssertionFailed
  | MissingParameter
  | LengthError
  deriving DecidableEq, Repr

/-- A computation that either aborts or returns a value. -/
abbrev Result (α : Type) : Type := Except ConfigError α

/-- Modelled from the spec: the enum `VariableType` (`VariableType.hpp` is not under `src/`);
the kind of a plot variable is evolution or diagnostic. -/
inductive VariableType
  | evolution
  | diagnostic
  deriving DecidableEq, Repr

/-- Modelled from the spec: the parameter source `GRParmParse` (`GRParmParse.hpp` is not
under `src/`).  It is a read-only key/value store with a "key present" predicate and
type-aware retrieval: a lookup returns the stored value for the key coerced to the type of
the output variable, so there is one reader per output type.  A reader is only consulted
for a key that is present. -/
structure GRParmParse where
  contains : String → Bool := fun _ => false
  getInt : String → Int := fun _ => 0
  getReal : String → ℚ := fun _ => 0
  getBool : String → Bool := fun _ => false
  getStr : String → String := fun _ => ""
  getBoolDim : String → Fin CH_SPACEDIM → Bool := fun _ _ => false
  getIntDim : String → Fin CH_SPACEDIM → Int := fun _ _ => 0
  getRealDim : String → Fin CH_SPACEDIM → ℚ := fun _ _ => 0
  getIntArr : String → List Int := fun _ => []
  getRealArr : String → List ℚ := fun _ => []
  getStrArr : String → List String := fun _ => []

/-- The constants and lookup tables that `read_params` takes from headers that are not
under `src/` (`BoundaryConditions.hpp`, `UserVariables.hpp`); they are parameters of the
embedding. -/
structure Externals where
  STATIC_BC : Int
  SOMMERFELD_BC : Int
  REFLECTIVE_BC : Int
  EVEN : Int
  NUM_VARS : Nat
  UserVariables_variable_name_to_enum : String → Int
  DiagnosticVariables_variable_name_to_enum : String → Int

/-- Modelled from the spec: `BoundaryConditions::params_t` (`BoundaryConditions.hpp` is not
under `src/`), with the fields that `read_params` writes: per axis the boundary kind of
each side and the periodic flag, per variable the parity and the asymptotic value. -/
structure params_t where
  hi_boundary : Fin CH_SPACEDIM → Int
  lo_boundary : Fin CH_SPACEDIM → Int
  is_periodic : Fin CH_SPACEDIM → Bool
  vars_parity : List Int
  vars_asymptotic_values : List ℚ

/-- The data members of `class ChomboParameters`. -/
structure ChomboParameters where
  verbosity : Int
  L : ℚ
  center : Fin CH_SPACEDIM → ℚ
  ivN : Fin CH_SPACEDIM → Int
  coarsest_dx : ℚ
  max_level : Int
  num_ghosts : Int
  tag_buffer_size : Int
  ref_ratios : List Int
  regrid_interval : List Int
  max_steps : Int
  ignore_checkpoint_name_mismatch : Bool
  dt_multiplier : ℚ
  stop_time : ℚ
  checkpoint_interval : Int
  plot_interval : Int
  max_grid_size : Int
  block_factor : Int
  fill_ratio : ℚ
  checkpoint_prefix : String
  plot_prefix : String
  write_plot_ghosts : Bool
  num_plot_vars : Int
  plot_vars : List (Int × VariableType)
  origin : Fin CH_SPACEDIM → ℚ
  dx : Fin CH_SPACEDIM → ℚ
  isPeriodic : Fin CH_SPACEDIM → Bool
  boundary_params : params_t
  nonperiodic_boundaries_exist : Bool
  symmetric_boundaries_exist : Bool
  regrid_threshold : ℚ

/-- The local arrays `Ni_full` and `Ni` of `read_params`. -/
structure GridCounts where
  Ni_full : Fin CH_SPACEDIM → Int
  Ni : Fin CH_SPACEDIM → Int

/-- Modelled from the spec: `CH_assert(c)`, a macro that is not under `src/`; a violated
assertion is a fatal validation error. -/
def CH_assert (c : Prop) [Decidable c] : Result Unit :=
  if c then Except.ok () else Except.error ConfigError.AssertionFailed

/-- Modelled from the spec: `pp.load(name, out)` returns the stored value, and fails with a
missing-parameter error when the key is absent. -/
def GRParmParse.load {α : Type} (pp : GRParmParse) (get : GRParmParse → String → α)
    (name : String) : Result α :=
  if pp.contains name then Except.ok (get pp name) else Except.error ConfigError.MissingParameter

/-- Modelled from the spec: `pp.load(name, out, default)` returns the stored value, or the
default when the key is absent. -/
def GRParmParse.load_or {α : Type} (pp : GRParmParse) (get : GRParmParse → String → α)
    (name : String) (default : α) : α :=
  if pp.contains name then get pp name else default

/-- Modelled from the spec: `pp.getarr(name, out, start, num)` returns `num` stored entries
from index `start`, and fails when the key is absent. -/
def GRParmParse.getarr (pp : GRParmParse) (name : String) (start num : Nat) :
    Result (List Int) :=
  if pp.contains name then Except.ok (((pp.getIntArr name).drop start).take num)
  else Except.error ConfigError.MissingParameter

/-- Modelled from the spec: `pp.load(name, vector, num_comp, default_vector)` for a vector
of strings returns `num_comp` stored names, each an empty string where the stored array is
shorter, or the default vector when the key is absent. -/
def GRParmParse.load_vector (pp : GRParmParse) (name : String) (num_comp : Nat)
    (default_vector : List String) : List String :=
  if pp.contains name then (List.range num_comp).map (fun i => (pp.getStrArr name).getD i "")
  else default_vector

/-- Modelled from the spec: the macro `FOR1(idir)` (its header is not under `src/`) runs
the body once for each axis, `idir = 0, ..., CH_SPACEDIM - 1` in this order.  This is the
form for a body that can abort. -/
def FOR1M {σ : Type} (body : Fin CH_SPACEDIM → σ → Result σ) (s : σ) : Result σ :=
  (List.finRange CH_SPACEDIM).foldlM (fun t idir => body idir t) s

/-- Modelled from the spec: the macro `FOR1(idir)` around a body that cannot abort. -/
def FOR1 {σ : Type} (body : Fin CH_SPACEDIM → σ → σ) (s : σ) : σ :=
  (List.finRange CH_SPACEDIM).foldl (fun t idir => body idir t) s

/-- The largest component of an array over the axes: `*std::max_element(a.begin(), a.end())`
at line 141 and `IntVect::max()` at line 142. -/
def max_element (a : Fin CH_SPACEDIM → Int) : Int :=
  max (max (a 0) (a 1)) (a 2)

/-! ## Lines 23-29: general parameters -/

/-- Lines 23-29 of `read_params`. -/
def read_general (pp : GRParmParse) (self : ChomboParameters) : ChomboParameters :=
  { self with
    verbosity := pp.load_or GRParmParse.getInt "verbosity" 0
    regrid_threshold := pp.load_or GRParmParse.getReal "regrid_threshold" (1 / 2)
    num_ghosts := pp.load_or GRParmParse.getInt "num_ghosts" 3
    tag_buffer_size := pp.load_or GRParmParse.getInt "tag_buffer_size" 3
    dt_multiplier := pp.load_or GRParmParse.getReal "dt_multiplier" (1 / 4)
    fill_ratio := pp.load_or GRParmParse.getReal "fill_ratio" (7 / 10) }

/-! ## Lines 31-75: periodicity and boundaries -/

/-- Lines 32-41: read the three arrays and set the defaults. -/
def boundary_init (env : Externals) (pp : GRParmParse) (self : ChomboParameters) :
    ChomboParameters :=
  let bc := env.STATIC_BC
  { self with
    isPeriodic := pp.load_or GRParmParse.getBoolDim "isPeriodic" (fun _ => true)
    boundary_params :=
      { hi_boundary := pp.load_or GRParmParse.getIntDim "hi_boundary" (fun _ => bc)
        lo_boundary := pp.load_or GRParmParse.getIntDim "lo_boundary" (fun _ => bc)
        vars_parity := List.replicate env.NUM_VARS env.EVEN
        vars_asymptotic_values := List.replicate env.NUM_VARS 0
        is_periodic := fun _ => true }
    nonperiodic_boundaries_exist := false
    symmetric_boundaries_exist := false }

/-- Lines 52-59: the reflective case of the loop body. -/
def boundary_reflective (env : Externals) (pp : GRParmParse) (idir : Fin CH_SPACEDIM)
    (self : ChomboParameters) : Result ChomboParameters :=
  if self.boundary_params.hi_boundary idir = env.REFLECTIVE_BC ∨
      self.boundary_params.lo_boundary idir = env.REFLECTIVE_BC then do
    let vp ← pp.load GRParmParse.getIntArr "vars_parity"
    pure { self with
      symmetric_boundaries_exist := true
      boundary_params := { self.boundary_params with vars_parity := vp } }
  else pure self

/-- Lines 60-67: the Sommerfeld case of the loop body. -/
def boundary_sommerfeld (env : Externals) (pp : GRParmParse) (idir : Fin CH_SPACEDIM)
    (self : ChomboParameters) : Result ChomboParameters :=
  if self.boundary_params.hi_boundary idir = env.SOMMERFELD_BC ∨
      self.boundary_params.lo_boundary idir = env.SOMMERFELD_BC then do
    let va ← pp.load GRParmParse.getRealArr "vars_asymptotic_values"
    pure { self with
      boundary_params := { self.boundary_params with vars_asymptotic_values := va } }
  else pure self

/-- Lines 44-68: the body of the boundary loop. -/
def boundary_body (env : Externals) (pp : GRParmParse) (idir : Fin CH_SPACEDIM)
    (self : ChomboParameters) : Result ChomboParameters :=
  if self.isPeriodic idir = false then do
    let self1 : ChomboParameters :=
      { self with
        nonperiodic_boundaries_exist := true
        boundary_params :=
          { self.boundary_params with
            is_periodic := Function.update self.boundary_params.is_periodic idir false } }
    let self2 ← boundary_reflective env pp idir self1
    boundary_sommerfeld env pp idir self2
  else pure self

/-- Lines 31-75 of `read_params`. -/
def read_boundary (env : Externals) (pp : GRParmParse) (self : ChomboParameters) :
    Result ChomboParameters :=
  FOR1M (boundary_body env pp) (boundary_init env pp self)

/-! ## Lines 77-142: grid counts -/

/-- Lines 85-90: the pair `(N_full, N)` after reading the global keys. -/
def read_global_N (pp : GRParmParse) : Result (Int × Int) :=
  let N_full : Int := -1
  let N : Int := -1
  if pp.contains "N_full" then do
    let v ← pp.load GRParmParse.getInt "N_full"
    pure (v, N)
  else if pp.contains "N" then do
    let v ← pp.load GRParmParse.getInt "N"
    pure (N_full, v)
  else pure (N_full, N)

/-- Line 96: the key `"N" + std::to_string(dir + 1)`. -/
def name (dir : Fin CH_SPACEDIM) : String := "N" ++ toString (dir.val + 1)

/-- Line 97: the key `"N" + std::to_string(dir + 1) + "_full"`. -/
def name_full (dir : Fin CH_SPACEDIM) : String := "N" ++ toString (dir.val + 1) ++ "_full"

/-- Lines 96-138: one pass of the grid loop on the cells `Ni_full[dir]` and `Ni[dir]`,
the only cells of the two arrays that the pass reads or writes.  Returns
`(Ni_full[dir], Ni[dir])`. -/
def grid_axis (env : Externals) (pp : GRParmParse) (bp : params_t) (N_full N : Int)
    (dir : Fin CH_SPACEDIM) : Result (Int × Int) := do
  let Ni_full_dir : Int := -1
  let Ni_dir : Int := -1
  CH_assert
    (((N_full > 0 ∨ N > 0) ∧ pp.contains (name dir) = false ∧ pp.contains (name_full dir) = false) ∨
      ((N_full < 0 ∧ N < 0) ∧ ¬(pp.contains (name dir) = true ∧ pp.contains (name_full dir) = true)))
  let loaded : Int × Int ←
    if N_full < 0 ∧ N < 0 then
      if pp.contains (name_full dir) then do
        let v ← pp.load GRParmParse.getInt (name_full dir)
        pure (v, Ni_dir)
      else do
        let v ← pp.load GRParmParse.getInt (name dir)
        pure (Ni_full_dir, v)
    else pure (Ni_full_dir, Ni_dir)
  CH_assert (N > 0 ∨ N_full > 0 ∨ loaded.2 > 0 ∨ loaded.1 > 0)
  let chosen : Int × Int :=
    if N_full > 0 then (N_full, loaded.2)
    else if N > 0 then (loaded.1, N)
    else loaded
  if chosen.2 > 0 then pure (chosen.2, chosen.2)
  else if bp.lo_boundary dir = env.REFLECTIVE_BC ∨ bp.hi_boundary dir = env.REFLECTIVE_BC then do
    CH_assert (Int.tmod chosen.1 2 = 0)
    pure (chosen.1, Int.tdiv chosen.1 2)
  else pure (chosen.1, chosen.1)

/-- Lines 94-140: the body of the grid loop, writing the three arrays at index `dir`. -/
def grid_body (env : Externals) (pp : GRParmParse) (N_full N : Int) (dir : Fin CH_SPACEDIM)
    (s : ChomboParameters × GridCounts) : Result (ChomboParameters × GridCounts) := do
  let r ← grid_axis env pp s.1.boundary_params N_full N dir
  pure ({ s.1 with ivN := Function.update s.1.ivN dir (r.2 - 1) },
        { Ni_full := Function.update s.2.Ni_full dir r.1
          Ni := Function.update s.2.Ni dir r.2 })

/-- Lines 77-140 of `read_params`.  The arrays `Ni_full` and `Ni` start uninitialised in the
source; every pass of the loop first writes `-1` to its cell, so they start at `-1` here. -/
def read_grid_N (env : Externals) (pp : GRParmParse) (self : ChomboParameters) :
    Result (ChomboParameters × GridCounts) := do
  let self1 : ChomboParameters := { self with ivN := fun _ => 1 }
  CH_assert (¬(pp.contains "N_full" = true ∧ pp.contains "N" = true))
  let g ← read_global_N pp
  FOR1M (grid_body env pp g.1 g.2) (self1, { Ni_full := fun _ => -1, Ni := fun _ => -1 })

/-- Line 141: `max_N_full`. -/
def max_N_full (g : GridCounts) : Int := max_element g.Ni_full

/-- Line 142: `max_N = ivN.max() + 1`. -/
def max_N (self : ChomboParameters) : Int := max_element self.ivN + 1

/-! ## Lines 144-163: domain length and resolution -/

/-- Lines 148-152: the local `L_full` and the object after reading `L_full` or `L`. -/
def read_L_keys (pp : GRParmParse) (self : ChomboParameters) : Result (ℚ × ChomboParameters) :=
  let L_full : ℚ := -1
  if pp.contains "L_full" then do
    let v ← pp.load GRParmParse.getReal "L_full"
    pure (v, self)
  else pure (L_full, { self with L := pp.load_or GRParmParse.getReal "L" 1 })

/-- Lines 144-163 of `read_params` in exact rational arithmetic: the product and the
quotients are not rounded.  `read_grid_L_double` is the rounded reading. -/
def read_grid_L (pp : GRParmParse) (maxN maxNfull : Int) (self : ChomboParameters) :
    Result ChomboParameters := do
  CH_assert (¬(pp.contains "L_full" = true ∧ pp.contains "L" = true))
  let r ← read_L_keys pp self
  let L_full : ℚ := r.1
  let self1 : ChomboParameters :=
    if L_full > 0 then { r.2 with L := (L_full * (maxN : ℚ)) / (maxNfull : ℚ) } else r.2
  let self2 : ChomboParameters := { self1 with coarsest_dx := self1.L / (maxN : ℚ) }
  pure { self2 with
    dx := fun _ => self2.coarsest_dx
    origin := fun _ => self2.coarsest_dx / 2 }

/-! ## Lines 144-163 in IEEE double precision -/

/-- The number of binary digits of `n`, by halving at most `fuel` times. -/
def bits_aux : Nat → Nat → Nat
  | 0, _ => 0
  | fuel + 1, n => if n = 0 then 0 else bits_aux fuel (n / 2) + 1

/-- The number of binary digits of `n`: `bits n - 1 = ⌊log₂ n⌋` for positive `n`. -/
def bits (n : Nat) : Nat := bits_aux n n

/-- The integer nearest to `a / b`, the even one of the two when `a / b` lies halfway. -/
def round_to_even (a b : Nat) : Nat :=
  if 2 * (a % b) < b then a / b
  else if b < 2 * (a % b) then a / b + 1
  else if (a / b) % 2 = 0 then a / b else a / b + 1

/-- The binary exponent `⌊log₂ (a / b)⌋` of a positive quotient: with
`d = ⌊log₂ a⌋ - ⌊log₂ b⌋` it is `d` when `2 ^ d ≤ a / b`, and `d - 1` otherwise. -/
def floor_log2 (a b : Nat) : Int :=
  let d : Int := (bits a : Int) - (bits b : Int)
  if b * 2 ^ d.toNat ≤ a * 2 ^ (-d).toNat then d else d - 1

/-- The binary64 value nearest to `a / b` as a pair `(m, sh)` that stands for `m / 2 ^ sh`:
the quotient is scaled to 53 significant bits (`sh = 52 - ⌊log₂ (a / b)⌋`, at most 1074 in
the subnormal range) and rounded to the nearest integer, ties to even. -/
def double_parts (a b : Nat) : Nat × Int :=
  let sh : Int := min (52 - floor_log2 a b) 1074
  (round_to_even (a * 2 ^ sh.toNat) (b * 2 ^ (-sh).toNat), sh)

/-- The result of an IEEE binary64 operation whose exact result is `q`: `q` rounded to the
nearest double, ties to even.  Overflow to infinity is left out; the values of this
development lie far inside the range of a double. -/
def round_double (q : ℚ) : ℚ :=
  if q = 0 then 0
  else
    let p := double_parts q.num.natAbs q.den
    (if q < 0 then -1 else 1) * ((p.1 : ℚ) * (2 : ℚ) ^ (-p.2))

/-- Lines 144-163 of `read_params` in double precision: `read_grid_L` with the product and
the quotient of line 157, the quotient of line 159 and the quotient of line 163 each
rounded by `round_double`.  The values `L_full` and `L` that are read are doubles already,
and the conversion of the `int` counts to `double` is exact. -/
def read_grid_L_double (pp : GRParmParse) (maxN maxNfull : Int) (self : ChomboParameters) :
    Result ChomboParameters := do
  CH_assert (¬(pp.contains "L_full" = true ∧ pp.contains "L" = true))
  let r ← read_L_keys pp self
  let L_full : ℚ := r.1
  let self1 : ChomboParameters :=
    if L_full > 0 then
      { r.2 with L := round_double (round_double (L_full * (maxN : ℚ)) / (maxNfull : ℚ)) }
    else r.2
  let self2 : ChomboParameters :=
    { self1 with coarsest_dx := round_double (self1.L / (maxN : ℚ)) }
  pure { self2 with
    dx := fun _ => self2.coarsest_dx
    origin := fun _ => round_double (self2.coarsest_dx / 2) }

/-! ## Lines 165-182: grid center -/

/-- Lines 173-178: the body of the center loop. -/
def center_body (env : Externals) (Ni : Fin CH_SPACEDIM → Int) (idir : Fin CH_SPACEDIM)
    (self : ChomboParameters) : ChomboParameters :=
  if self.boundary_params.lo_boundary idir = env.REFLECTIVE_BC then
    { self with center := Function.update self.center idir 0 }
  else if self.boundary_params.hi_boundary idir = env.REFLECTIVE_BC then
    { self with center := Function.update self.center idir (self.coarsest_dx * (Ni idir : ℚ)) }
  else self

/-- Lines 165-179 of `read_params`. -/
def read_center (env : Externals) (pp : GRParmParse) (Ni : Fin CH_SPACEDIM → Int)
    (self : ChomboParameters) : ChomboParameters :=
  let self1 : ChomboParameters :=
    { self with
      center := pp.load_or GRParmParse.getRealDim "center"
        (fun i => (1 / 2 : ℚ) * (Ni i : ℚ) * self.coarsest_dx) }
  FOR1 (center_body env Ni) self1

/-- Lines 173-178 in double precision: the product of line 178 is rounded. -/
def center_body_double (env : Externals) (Ni : Fin CH_SPACEDIM → Int) (idir : Fin CH_SPACEDIM)
    (self : ChomboParameters) : ChomboParameters :=
  if self.boundary_params.lo_boundary idir = env.REFLECTIVE_BC then
    { self with center := Function.update self.center idir 0 }
  else if self.boundary_params.hi_boundary idir = env.REFLECTIVE_BC then
    { self with
      center := Function.update self.center idir
        (round_double (self.coarsest_dx * (Ni idir : ℚ))) }
  else self

/-- Lines 165-179 of `read_params` in double precision: `0.5 * Ni[i]` is exact, its product
with `coarsest_dx` is rounded. -/
def read_center_double (env : Externals) (pp : GRParmParse) (Ni : Fin CH_SPACEDIM → Int)
    (self : ChomboParameters) : ChomboParameters :=
  let self1 : ChomboParameters :=
    { self with
      center := pp.load_or GRParmParse.getRealDim "center"
        (fun i => round_double (round_double ((1 / 2 : ℚ) * (Ni i : ℚ)) * self.coarsest_dx)) }
  FOR1 (center_body_double env Ni) self1

/-! ## Lines 184-204: miscellaneous -/

/-- Lines 184-204 of `read_params`.  `max_level + 1` is the size of `ref_ratios` and the
number of entries read into `regrid_interval`, both Chombo `Vector`s whose header is not
under `src/`; a negative value is read here as size 0, and the statements that assert a
successful call assume `level_valid`, that is `max_level + 1` not negative. -/
def read_misc (pp : GRParmParse) (self : ChomboParameters) : Result ChomboParameters := do
  let ignore_mismatch := pp.load_or GRParmParse.getBool "ignore_checkpoint_name_mismatch" false
  let max_level := pp.load_or GRParmParse.getInt "max_level" 0
  let ref_ratios : List Int := List.replicate (max_level + 1).toNat 2
  let regrid_interval ← pp.getarr "regrid_interval" 0 (max_level + 1).toNat
  let checkpoint_interval := pp.load_or GRParmParse.getInt "checkpoint_interval" 1
  let chk ← pp.load GRParmParse.getStr "chk_prefix"
  let plot_interval := pp.load_or GRParmParse.getInt "plot_interval" 0
  let plt ← pp.load GRParmParse.getStr "plot_prefix"
  pure { self with
    ignore_checkpoint_name_mismatch := ignore_mismatch
    max_level := max_level
    ref_ratios := ref_ratios
    regrid_interval := regrid_interval
    checkpoint_interval := checkpoint_interval
    checkpoint_prefix := chk
    plot_interval := plot_interval
    plot_prefix := plt
    stop_time := pp.load_or GRParmParse.getReal "stop_time" 1
    max_steps := pp.load_or GRParmParse.getInt "max_steps" 1000000
    write_plot_ghosts := pp.load_or GRParmParse.getBool "write_plot_ghosts" false }

/-! ## Lines 206-235: plot variables -/

/-- Lines 212-233: the body of the loop over the plot variable names. -/
def plot_var_body (env : Externals) (plot_vars : List (Int × VariableType))
    (var_name : String) : List (Int × VariableType) :=
  let var : Int := env.UserVariables_variable_name_to_enum var_name
  let r : Int × VariableType :=
    if var < 0 then
      let var1 : Int := env.DiagnosticVariables_variable_name_to_enum var_name
      if var1 < 0 then (var1, VariableType.evolution) else (var1, VariableType.diagnostic)
    else (var, VariableType.evolution)
  if r.1 ≥ 0 then plot_vars ++ [r] else plot_vars

/-- Lines 206-235 of `read_params`.  Line 208 constructs
`std::vector<std::string>(num_plot_vars, "")`, which throws `std::length_error` when
`num_plot_vars` is negative. -/
def read_plot_vars (env : Externals) (pp : GRParmParse) (self : ChomboParameters) :
    Result ChomboParameters := do
  let num_plot_vars : Int := pp.load_or GRParmParse.getInt "num_plot_vars" 0
  if num_plot_vars < 0 then throw ConfigError.LengthError
  let plot_var_names : List String := List.replicate num_plot_vars.toNat ""
  let names : List String :=
    pp.load_vector "plot_vars" num_plot_vars.toNat plot_var_names
  let plot_vars := names.foldl (plot_var_body env) self.plot_vars
  pure { self with plot_vars := plot_vars, num_plot_vars := (plot_vars.length : Int) }

/-! ## Lines 237-254: box sizes -/

/-- Lines 237-254 of `read_params`. -/
def read_box (pp : GRParmParse) (self : ChomboParameters) : Result ChomboParameters := do
  let max_grid_size : Int ←
    if pp.contains "max_grid_size" then pp.load GRParmParse.getInt "max_grid_size"
    else pure (pp.load_or GRParmParse.getInt "max_box_size" 64)
  let block_factor : Int ←
    if pp.contains "block_factor" then pp.load GRParmParse.getInt "block_factor"
    else pure (pp.load_or GRParmParse.getInt "min_box_size" 8)
  pure { self with max_grid_size := max_grid_size, block_factor := block_factor }

/-! ## The whole function -/

/-- Lines 21-142 of `read_params`: everything up to the grid counts, returning the object
together with the local arrays `Ni_full` and `Ni`. -/
def resolve_counts (env : Externals) (pp : GRParmParse) (self : ChomboParameters) :
    Result (ChomboParameters × GridCounts) := do
  let s1 := read_general pp self
  let s2 ← read_boundary env pp s1
  read_grid_N env pp s2

/-- Lines 144-255 of `read_params`: everything after the grid counts. -/
def resolve_rest (env : Externals) (pp : GRParmParse) (sg : ChomboParameters × GridCounts) :
    Result ChomboParameters := do
  let s3 ← read_grid_L pp (max_N sg.1) (max_N_full sg.2) sg.1
  let s4 := read_center env pp sg.2.Ni s3
  let s5 ← read_misc pp s4
  let s6 ← read_plot_vars env pp s5
  read_box pp s6

/-- `ChomboParameters::read_params`, lines 21-255, with the floating-point operations in
exact rational arithmetic. -/
def read_params (env : Externals) (pp : GRParmParse) (self : ChomboParameters) :
    Result ChomboParameters := do
  let sg ← resolve_counts env pp self
  resolve_rest env pp sg

/-! ## `read_params` in IEEE double precision -/

/-- Lines 144-255 of `read_params` in double precision. -/
def resolve_rest_double (env : Externals) (pp : GRParmParse)
    (sg : ChomboParameters × GridCounts) : Result ChomboParameters := do
  let s3 ← read_grid_L_double pp (max_N sg.1) (max_N_full sg.2) sg.1
  let s4 := read_center_double env pp sg.2.Ni s3
  let s5 ← read_misc pp s4
  let s6 ← read_plot_vars env pp s5
  read_box pp s6

/-- `ChomboParameters::read_params`, lines 21-255, with the floating-point operations rounded
to IEEE binary64: the integer stages are those of `read_params`. -/
def read_params_double (env : Externals) (pp : GRParmParse) (self : ChomboParameters) :
    Result ChomboParameters := do
  let sg ← resolve_counts env pp self
  resolve_rest_double env pp sg


/-! ## Key-level description of the input

The definitions below describe, in terms of the keys of the parameter source only, when
each stage of `read_params` runs through and what it then produces.  The lemmas after
them prove that the stages of `read_params` compute exactly this. -/

/-- Input: the periodicity flags read at line 32. -/
def periodic_in (pp : GRParmParse) : Fin CH_SPACEDIM → Bool :=
  pp.load_or GRParmParse.getBoolDim "isPeriodic" (fun _ => true)

/-- Input: the high-side boundary kinds read at line 34. -/
def hi_kind (env : Externals) (pp : GRParmParse) : Fin CH_SPACEDIM → Int :=
  pp.load_or GRParmParse.getIntDim "hi_boundary" (fun _ => env.STATIC_BC)

/-- Input: the low-side boundary kinds read at line 35. -/
def lo_kind (env : Externals) (pp : GRParmParse) : Fin CH_SPACEDIM → Int :=
  pp.load_or GRParmParse.getIntDim "lo_boundary" (fun _ => env.STATIC_BC)

/-- Axis `dir` has the reflective kind on its low or high side. -/
def reflective_axis (env : Externals) (pp : GRParmParse) (dir : Fin CH_SPACEDIM) : Prop :=
  lo_kind env pp dir = env.REFLECTIVE_BC ∨ hi_kind env pp dir = env.REFLECTIVE_BC

/-- Axis `dir` has the Sommerfeld kind on its low or high side. -/
def sommerfeld_axis (env : Externals) (pp : GRParmParse) (dir : Fin CH_SPACEDIM) : Prop :=
  lo_kind env pp dir = env.SOMMERFELD_BC ∨ hi_kind env pp dir = env.SOMMERFELD_BC

instance (env : Externals) (pp : GRParmParse) (dir : Fin CH_SPACEDIM) :
    Decidable (reflective_axis env pp dir) := by
  unfold reflective_axis; infer_instance

instance (env : Externals) (pp : GRParmParse) (dir : Fin CH_SPACEDIM) :
    Decidable (sommerfeld_axis env pp dir) := by
  unfold sommerfeld_axis; infer_instance

/-- The effect of one pass of the boundary loop when it does not abort. -/
def boundary_step (env : Externals) (pp : GRParmParse) (idir : Fin CH_SPACEDIM)
    (self : ChomboParameters) : ChomboParameters :=
  if self.isPeriodic idir = false then
    let self1 : ChomboParameters :=
      { self with
        nonperiodic_boundaries_exist := true
        boundary_params :=
          { self.boundary_params with
            is_periodic := Function.update self.boundary_params.is_periodic idir false } }
    let self2 : ChomboParameters :=
      if self1.boundary_params.hi_boundary idir = env.REFLECTIVE_BC ∨
          self1.boundary_params.lo_boundary idir = env.REFLECTIVE_BC then
        { self1 with
          symmetric_boundaries_exist := true
          boundary_params :=
            { self1.boundary_params with vars_parity := pp.getIntArr "vars_parity" } }
      else self1
    if self2.boundary_params.hi_boundary idir = env.SOMMERFELD_BC ∨
        self2.boundary_params.lo_boundary idir = env.SOMMERFELD_BC then
      { self2 with
        boundary_params :=
          { self2.boundary_params with
            vars_asymptotic_values := pp.getRealArr "vars_asymptotic_values" } }
    else self2
  else self

/-- One pass of the boundary loop aborts exactly in this case. -/
def boundary_bad (env : Externals) (pp : GRParmParse) (idir : Fin CH_SPACEDIM)
    (self : ChomboParameters) : Prop :=
  self.isPeriodic idir = false ∧
    (((self.boundary_params.hi_boundary idir = env.REFLECTIVE_BC ∨
        self.boundary_params.lo_boundary idir = env.REFLECTIVE_BC) ∧
        pp.contains "vars_parity" = false) ∨
     ((self.boundary_params.hi_boundary idir = env.SOMMERFELD_BC ∨
        self.boundary_params.lo_boundary idir = env.SOMMERFELD_BC) ∧
        pp.contains "vars_asymptotic_values" = false))

instance (env : Externals) (pp : GRParmParse) (idir : Fin CH_SPACEDIM)
    (self : ChomboParameters) : Decidable (boundary_bad env pp idir self) := by
  unfold boundary_bad; infer_instance

/-- Key-level condition under which the boundary stage (lines 31-69) does not abort: every
non-periodic axis with a reflective side has `vars_parity`, every non-periodic axis with a
Sommerfeld side has `vars_asymptotic_values`. -/
def boundary_valid (env : Externals) (pp : GRParmParse) : Prop :=
  ∀ i : Fin CH_SPACEDIM, periodic_in pp i = false →
    (reflective_axis env pp i → pp.contains "vars_parity" = true) ∧
    (sommerfeld_axis env pp i → pp.contains "vars_asymptotic_values" = true)

instance (env : Externals) (pp : GRParmParse) : Decidable (boundary_valid env pp) := by
  unfold boundary_valid; infer_instance

/-- The object after the boundary stage, when it does not abort. -/
def boundary_result (env : Externals) (pp : GRParmParse) (self : ChomboParameters) :
    ChomboParameters :=
  boundary_step env pp 2 (boundary_step env pp 1 (boundary_step env pp 0
    (boundary_init env pp self)))

/-- The pair `(N_full, N)` of lines 85-90 as a function of the keys: a global key that is
absent leaves the initial `-1`, and `N` is not read when `N_full` is present. -/
def global_N (pp : GRParmParse) : Int × Int :=
  if pp.contains "N_full" then (pp.getInt "N_full", -1)
  else if pp.contains "N" then (-1, pp.getInt "N")
  else (-1, -1)

/-- Key-level condition under which the pass of the grid loop for axis `dir` does not
abort. -/
def axis_valid (env : Externals) (pp : GRParmParse) (dir : Fin CH_SPACEDIM) : Prop :=
  if 0 < (global_N pp).1 then
    pp.contains (name dir) = false ∧ pp.contains (name_full dir) = false ∧
      (reflective_axis env pp dir → (global_N pp).1 % 2 = 0)
  else if 0 < (global_N pp).2 then
    pp.contains (name dir) = false ∧ pp.contains (name_full dir) = false
  else
    (global_N pp).1 < 0 ∧ (global_N pp).2 < 0 ∧
      (if pp.contains (name_full dir) = true then
        pp.contains (name dir) = false ∧ 0 < pp.getInt (name_full dir) ∧
          (reflective_axis env pp dir → pp.getInt (name_full dir) % 2 = 0)
      else pp.contains (name dir) = true ∧ 0 < pp.getInt (name dir))

instance (env : Externals) (pp : GRParmParse) (dir : Fin CH_SPACEDIM) :
    Decidable (axis_valid env pp dir) := by
  unfold axis_valid; infer_instance

/-- The full-domain count that a valid axis is given: `Ni_full[dir]` before line 124. -/
def axis_full_in (pp : GRParmParse) (dir : Fin CH_SPACEDIM) : Int :=
  if 0 < (global_N pp).1 then (global_N pp).1 else pp.getInt (name_full dir)

/-- The half-domain count that a valid axis is given directly: `Ni[dir]` before line 124. -/
def axis_half_in (pp : GRParmParse) (dir : Fin CH_SPACEDIM) : Int :=
  if 0 < (global_N pp).2 then (global_N pp).2 else pp.getInt (name dir)

/-- The axis takes its count from a full-domain key (`N_full` or `N<i>_full`). -/
def axis_uses_full (pp : GRParmParse) (dir : Fin CH_SPACEDIM) : Prop :=
  0 < (global_N pp).1 ∨ (¬ 0 < (global_N pp).2 ∧ pp.contains (name_full dir) = true)

instance (pp : GRParmParse) (dir : Fin CH_SPACEDIM) : Decidable (axis_uses_full pp dir) := by
  unfold axis_uses_full; infer_instance

/-- The pair `(Ni_full[dir], Ni[dir])` that a valid axis resolves to. -/
def axis_counts (env : Externals) (pp : GRParmParse) (dir : Fin CH_SPACEDIM) : Int × Int :=
  if axis_uses_full pp dir then
    (axis_full_in pp dir,
      if reflective_axis env pp dir then axis_full_in pp dir / 2 else axis_full_in pp dir)
  else (axis_half_in pp dir, axis_half_in pp dir)

/-- Key-level condition under which the grid stage (lines 77-140) does not abort. -/
def grid_valid (env : Externals) (pp : GRParmParse) : Prop :=
  ¬(pp.contains "N_full" = true ∧ pp.contains "N" = true) ∧
    ∀ dir : Fin CH_SPACEDIM, axis_valid env pp dir

instance (env : Externals) (pp : GRParmParse) : Decidable (grid_valid env pp) := by
  unfold grid_valid; infer_instance

/-- The object and the local arrays after the grid stage, when it does not abort. -/
def grid_result (env : Externals) (pp : GRParmParse) (self : ChomboParameters) :
    ChomboParameters × GridCounts :=
  ({ self with ivN := fun dir => (axis_counts env pp dir).2 - 1 },
   { Ni_full := fun dir => (axis_counts env pp dir).1
     Ni := fun dir => (axis_counts env pp dir).2 })

/-- Key-level condition under which lines 21-142 do not abort. -/
def counts_valid (env : Externals) (pp : GRParmParse) : Prop :=
  boundary_valid env pp ∧ grid_valid env pp

instance (env : Externals) (pp : GRParmParse) : Decidable (counts_valid env pp) := by
  unfold counts_valid; infer_instance

/-- The result of lines 21-142 when they do not abort. -/
def counts_result (env : Externals) (pp : GRParmParse) (self : ChomboParameters) :
    ChomboParameters × GridCounts :=
  grid_result env pp (boundary_result env pp (read_general pp self))

/-- The value of `L` after lines 148-157, given its value `L0` before the call. -/
def grid_L_value (pp : GRParmParse) (maxN maxNfull : Int) (L0 : ℚ) : ℚ :=
  if pp.contains "L_full" = true then
    if 0 < pp.getReal "L_full" then (pp.getReal "L_full" * (maxN : ℚ)) / (maxNfull : ℚ) else L0
  else pp.load_or GRParmParse.getReal "L" 1

/-- The object after lines 144-163, when they do not abort. -/
def grid_L_result (pp : GRParmParse) (maxN maxNfull : Int) (self : ChomboParameters) :
    ChomboParameters :=
  { self with
    L := grid_L_value pp maxN maxNfull self.L
    coarsest_dx := grid_L_value pp maxN maxNfull self.L / (maxN : ℚ)
    dx := fun _ => grid_L_value pp maxN maxNfull self.L / (maxN : ℚ)
    origin := fun _ => grid_L_value pp maxN maxNfull self.L / (maxN : ℚ) / 2 }

/-- Key-level condition under which lines 184-204 do not abort. -/
def misc_valid (pp : GRParmParse) : Prop :=
  pp.contains "regrid_interval" = true ∧ pp.contains "chk_prefix" = true ∧
    pp.contains "plot_prefix" = true

instance (pp : GRParmParse) : Decidable (misc_valid pp) := by
  unfold misc_valid; infer_instance

/-- The object after lines 184-204, when they do not abort. -/
def misc_result (pp : GRParmParse) (self : ChomboParameters) : ChomboParameters :=
  { self with
    ignore_checkpoint_name_mismatch :=
      pp.load_or GRParmParse.getBool "ignore_checkpoint_name_mismatch" false
    max_level := pp.load_or GRParmParse.getInt "max_level" 0
    ref_ratios := List.replicate (pp.load_or GRParmParse.getInt "max_level" 0 + 1).toNat 2
    regrid_interval :=
      ((pp.getIntArr "regrid_interval").drop 0).take
        (pp.load_or GRParmParse.getInt "max_level" 0 + 1).toNat
    checkpoint_interval := pp.load_or GRParmParse.getInt "checkpoint_interval" 1
    checkpoint_prefix := pp.getStr "chk_prefix"
    plot_interval := pp.load_or GRParmParse.getInt "plot_interval" 0
    plot_prefix := pp.getStr "plot_prefix"
    stop_time := pp.load_or GRParmParse.getReal "stop_time" 1
    max_steps := pp.load_or GRParmParse.getInt "max_steps" 1000000
    write_plot_ghosts := pp.load_or GRParmParse.getBool "write_plot_ghosts" false }

/-- The maximum box size that lines 239-246 resolve. -/
def box_max_grid_size (pp : GRParmParse) : Int :=
  if pp.contains "max_grid_size" = true then pp.getInt "max_grid_size"
  else if pp.contains "max_box_size" = true then pp.getInt "max_box_size"
  else 64

/-- The block factor that lines 247-254 resolve. -/
def box_block_factor (pp : GRParmParse) : Int :=
  if pp.contains "block_factor" = true then pp.getInt "block_factor"
  else if pp.contains "min_box_size" = true then pp.getInt "min_box_size"
  else 8

/-- The object after lines 237-254. -/
def box_result (pp : GRParmParse) (self : ChomboParameters) : ChomboParameters :=
  { self with max_grid_size := box_max_grid_size pp, block_factor := box_block_factor pp }

/-- Key-level condition under which lines 206-235 do not abort: `num_plot_vars` is absent
or not negative. -/
def plot_count_valid (pp : GRParmParse) : Prop :=
  0 ≤ pp.load_or GRParmParse.getInt "num_plot_vars" 0

instance (pp : GRParmParse) : Decidable (plot_count_valid pp) := by
  unfold plot_count_valid; infer_instance

/-- The object after lines 206-235, when they do not abort. -/
def plot_vars_result (env : Externals) (pp : GRParmParse) (self : ChomboParameters) :
    ChomboParameters :=
  { self with
    plot_vars :=
      (pp.load_vector "plot_vars" (pp.load_or GRParmParse.getInt "num_plot_vars" 0).toNat
        (List.replicate (pp.load_or GRParmParse.getInt "num_plot_vars" 0).toNat "")).foldl
        (plot_var_body env) self.plot_vars
    num_plot_vars :=
      (((pp.load_vector "plot_vars" (pp.load_or GRParmParse.getInt "num_plot_vars" 0).toNat
        (List.replicate (pp.load_or GRParmParse.getInt "num_plot_vars" 0).toNat "")).foldl
        (plot_var_body env) self.plot_vars).length : Int) }

/-- Key-level condition under which lines 144-255 do not abort. -/
def rest_valid (pp : GRParmParse) : Prop :=
  ¬(pp.contains "L_full" = true ∧ pp.contains "L" = true) ∧ misc_valid pp ∧
    plot_count_valid pp

instance (pp : GRParmParse) : Decidable (rest_valid pp) := by
  unfold rest_valid; infer_instance

/-- The object after lines 144-255, when they do not abort. -/
def rest_result (env : Externals) (pp : GRParmParse) (sg : ChomboParameters × GridCounts) :
    ChomboParameters :=
  box_result pp (plot_vars_result env pp (misc_result pp (read_center env pp sg.2.Ni
    (grid_L_result pp (max_N sg.1) (max_N_full sg.2) sg.1))))

/-- Key-level condition under which `read_params` does not abort: all other parameters
are valid. -/
def params_valid (env : Externals) (pp : GRParmParse) : Prop :=
  counts_valid env pp ∧ rest_valid pp

instance (env : Externals) (pp : GRParmParse) : Decidable (params_valid env pp) := by
  unfold params_valid; infer_instance

/-- The object that `read_params` returns when it does not abort. -/
def params_result (env : Externals) (pp : GRParmParse) (self : ChomboParameters) :
    ChomboParameters :=
  rest_result env pp (counts_result env pp self)

/-- The center that lines 167-179 produce, from the boundary kinds, `coarsest_dx` and the
half-domain counts `Ni`. -/
def center_value (env : Externals) (pp : GRParmParse) (Ni : Fin CH_SPACEDIM → Int)
    (self : ChomboParameters) : Fin CH_SPACEDIM → ℚ :=
  fun d =>
    if self.boundary_params.lo_boundary d = env.REFLECTIVE_BC then 0
    else if self.boundary_params.hi_boundary d = env.REFLECTIVE_BC then
      self.coarsest_dx * (Ni d : ℚ)
    else
      pp.load_or GRParmParse.getRealDim "center"
        (fun i => (1 / 2 : ℚ) * (Ni i : ℚ) * self.coarsest_dx) d

/-- The value that the center loop leaves in `center[i]`. -/
def center_cell (env : Externals) (Ni : Fin CH_SPACEDIM → Int) (i : Fin CH_SPACEDIM)
    (s : ChomboParameters) : ℚ :=
  if s.boundary_params.lo_boundary i = env.REFLECTIVE_BC then 0
  else if s.boundary_params.hi_boundary i = env.REFLECTIVE_BC then s.coarsest_dx * (Ni i : ℚ)
  else s.center i

/-- The full-domain count `f` is supplied for axis `axis`: through `N_full`, or through
`N<i>_full` when no global key is present. -/
def full_count_supplied (pp : GRParmParse) (axis : Fin CH_SPACEDIM) (f : Int) : Prop :=
  (pp.contains "N_full" = true ∧ pp.getInt "N_full" = f) ∨
  (pp.contains "N_full" = false ∧ pp.contains "N" = false ∧
    pp.contains (name_full axis) = true ∧ pp.getInt (name_full axis) = f)

instance (pp : GRParmParse) (axis : Fin CH_SPACEDIM) (f : Int) :
    Decidable (full_count_supplied pp axis f) := by
  unfold full_count_supplied; infer_instance

/-- The half-domain count `k` is supplied for axis `axis` directly: through `N`, or through
`N<i>` when no global key is present. -/
def half_count_supplied (pp : GRParmParse) (axis : Fin CH_SPACEDIM) (k : Int) : Prop :=
  (pp.contains "N" = true ∧ pp.getInt "N" = k) ∨
  (pp.contains "N_full" = false ∧ pp.contains "N" = false ∧
    pp.contains (name axis) = true ∧ pp.getInt (name axis) = k)

instance (pp : GRParmParse) (axis : Fin CH_SPACEDIM) (k : Int) :
    Decidable (half_count_supplied pp axis k) := by
  unfold half_count_supplied; infer_instance

/-- The size `max_level + 1` of lines 192 and 194 is not negative: `max_level` is absent or
at least -1. -/
def level_valid (pp : GRParmParse) : Prop :=
  0 ≤ pp.load_or GRParmParse.getInt "max_level" 0 + 1

instance (pp : GRParmParse) : Decidable (level_valid pp) := by
  unfold level_valid; infer_instance

/-- All parameters other than the value of the count of axis `axis` are valid: the boundary
arrays are there when needed, the global keys do not conflict, every other axis resolves,
the keys of this axis do not conflict (not both per-axis keys, and no per-axis key next to
a global key), `L` and `L_full` do not conflict, the required keys are present, and the
sizes `num_plot_vars` and `max_level + 1` are not negative. -/
def valid_except_axis (env : Externals) (pp : GRParmParse) (axis : Fin CH_SPACEDIM) : Prop :=
  boundary_valid env pp ∧
  ¬(pp.contains "N_full" = true ∧ pp.contains "N" = true) ∧
  (∀ j : Fin CH_SPACEDIM, j ≠ axis → axis_valid env pp j) ∧
  ¬(pp.contains (name axis) = true ∧ pp.contains (name_full axis) = true) ∧
  ((pp.contains "N_full" = true ∨ pp.contains "N" = true) →
    pp.contains (name axis) = false ∧ pp.contains (name_full axis) = false) ∧
  rest_valid pp ∧ level_valid pp

instance (env : Externals) (pp : GRParmParse) (axis : Fin CH_SPACEDIM) :
    Decidable (valid_except_axis env pp axis) := by
  unfold valid_except_axis; infer_instance

/-! ## Concrete inputs -/

/-- The constants of GRChombo's `BoundaryConditions.hpp` and two small lookup tables: the
evolution variables `chi`, `phi` and the diagnostic variable `rho`. -/
def sample_env : Externals :=
  { STATIC_BC := 0
    SOMMERFELD_BC := 1
    REFLECTIVE_BC := 2
    EVEN := 6
    NUM_VARS := 2
    UserVariables_variable_name_to_enum := fun s =>
      if s = "chi" then 0 else if s = "phi" then 1 else -1
    DiagnosticVariables_variable_name_to_enum := fun s =>
      if s = "rho" then 0 else -1 }

/-- An object before the call of `read_params`: every member zero or empty. -/
def blank : ChomboParameters :=
  { verbosity := 0, L := 0, center := fun _ => 0, ivN := fun _ => 0, coarsest_dx := 0
    max_level := 0, num_ghosts := 0, tag_buffer_size := 0, ref_ratios := []
    regrid_interval := [], max_steps := 0, ignore_checkpoint_name_mismatch := false
    dt_multiplier := 0, stop_time := 0, checkpoint_interval := 0, plot_interval := 0
    max_grid_size := 0, block_factor := 0, fill_ratio := 0, checkpoint_prefix := ""
    plot_prefix := "", write_plot_ghosts := false, num_plot_vars := 0, plot_vars := []
    origin := fun _ => 0, dx := fun _ => 0, isPeriodic := fun _ => false
    boundary_params :=
      { hi_boundary := fun _ => 0, lo_boundary := fun _ => 0, is_periodic := fun _ => false
        vars_parity := [], vars_asymptotic_values := [] }
    nonperiodic_boundaries_exist := false, symmetric_boundaries_exist := false
    regrid_threshold := 0 }

/-- A parameter file with the given keys on top of the three required ones, integer
values `ints`, real values `reals`, periodicity flags `per` and boundary kinds `lo`, `hi`. -/
def sample_pp (keys : List String) (ints : String → Int) (reals : String → ℚ)
    (per : Fin CH_SPACEDIM → Bool) (lo hi : Fin CH_SPACEDIM → Int) : GRParmParse :=
  { contains := fun k =>
      decide (k ∈ keys ++ ["regrid_interval", "chk_prefix", "plot_prefix"])
    getInt := ints
    getReal := reals
    getBoolDim := fun _ => per
    getIntDim := fun k => if k = "lo_boundary" then lo else hi }

/-- Scenario E: `N = 16` and `N_full = 32` together. -/
def pp_both_N : GRParmParse :=
  sample_pp ["N", "N_full"] (fun k => if k = "N" then 16 else 32) (fun _ => 1)
    (fun _ => true) (fun _ => 0) (fun _ => 0)

/-- Scenario B: axis 0 non-periodic with both sides reflective, `N1_full = n1_full`,
`N2 = N3 = 16`, further keys `keys` and the real value `l` under every real key. -/
def pp_reflective_N1_full (n1_full : Int) (keys : List String) (l : ℚ) : GRParmParse :=
  sample_pp
    (["isPeriodic", "lo_boundary", "hi_boundary", "vars_parity", "N1_full", "N2", "N3"] ++ keys)
    (fun k => if k = "N1_full" then n1_full else 16) (fun _ => l)
    (fun i => decide (i ≠ 0)) (fun i => if i = 0 then 2 else 0) (fun i => if i = 0 then 2 else 0)

/-- Axis 0 non-periodic with a reflective low side, and one global count key `key`
(`N` or `N_full`) holding `n`. -/
def pp_reflective_global (key : String) (n : Int) : GRParmParse :=
  sample_pp ["isPeriodic", "lo_boundary", "hi_boundary", "vars_parity", key]
    (fun _ => n) (fun _ => 1)
    (fun i => decide (i ≠ 0)) (fun i => if i = 0 then 2 else 0) (fun _ => 0)

/-- Axis 0 non-periodic with a reflective high side only, `N = 16`. -/
def pp_reflective_hi : GRParmParse :=
  sample_pp ["isPeriodic", "lo_boundary", "hi_boundary", "vars_parity", "N"]
    (fun _ => 16) (fun _ => 1)
    (fun i => decide (i ≠ 0)) (fun _ => 0) (fun i => if i = 0 then 2 else 0)

/-- A global key `N_full = nf` next to the per-axis keys `N1 = N2 = N3 = 16`. -/
def pp_N_full_and_axis_keys (nf : Int) : GRParmParse :=
  sample_pp ["N_full", "N1", "N2", "N3"] (fun k => if k = "N_full" then nf else 16)
    (fun _ => 1) (fun _ => true) (fun _ => 0) (fun _ => 0)

/-- All axes periodic; the keys `keys` are present, every integer key holds `v` and every
real key holds `l`. -/
def pp_periodic (keys : List String) (v : Int) (l : ℚ) : GRParmParse :=
  sample_pp keys (fun _ => v) (fun _ => l) (fun _ => true) (fun _ => 0) (fun _ => 0)

/-- Axis 0 non-periodic with a reflective low side and `N = 16`, but without the key
`vars_parity`. -/
def pp_reflective_no_parity : GRParmParse :=
  sample_pp ["isPeriodic", "lo_boundary", "hi_boundary", "N"]
    (fun _ => 16) (fun _ => 1)
    (fun i => decide (i ≠ 0)) (fun i => if i = 0 then 2 else 0) (fun _ => 0)

/-- The plot variable names that lines 207-209 load: `num_plot_vars` names from the key
`plot_vars`, or that many empty names when the key is absent. -/
def plot_names (pp : GRParmParse) : List String :=
  pp.load_vector "plot_vars" (pp.load_or GRParmParse.getInt "num_plot_vars" 0).toNat
    (List.replicate (pp.load_or GRParmParse.getInt "num_plot_vars" 0).toNat "")

/-- The resolution of one plot variable name in the words of the specification: the
evolution identifier when the evolution lookup is non-negative, else the diagnostic
identifier when the diagnostic lookup is non-negative, else nothing. -/
def resolve_plot_name (env : Externals) (var_name : String) : Option (Int × VariableType) :=
  if 0 ≤ env.UserVariables_variable_name_to_enum var_name then
    some (env.UserVariables_variable_name_to_enum var_name, VariableType.evolution)
  else if 0 ≤ env.DiagnosticVariables_variable_name_to_enum var_name then
    some (env.DiagnosticVariables_variable_name_to_enum var_name, VariableType.diagnostic)
  else none

/-- Scenario C: `N = 16`, `num_plot_vars = 2` and `plot_vars = rho unknown_var`. -/
def pp_plot_vars : GRParmParse :=
  { pp_periodic ["N", "num_plot_vars", "plot_vars"] 16 1 with
    getInt := fun k => if k = "num_plot_vars" then 2 else 16
    getStrArr := fun _ => ["rho", "unknown_var"] }

/-- All axes periodic (no `isPeriodic` key), but `lo_boundary` names the reflective kind
on axis 0; `N_full = 32`. -/
def pp_periodic_reflective_kind : GRParmParse :=
  sample_pp ["lo_boundary", "N_full"] (fun _ => 32) (fun _ => 1)
    (fun _ => true) (fun i => if i = 0 then 2 else 0) (fun _ => 0)

/-- Axis 0 non-periodic with static sides (no boundary kind keys), `N_full = 32`. -/
def pp_static_nonperiodic : GRParmParse :=
  sample_pp ["isPeriodic", "N_full"] (fun _ => 32) (fun _ => 1)
    (fun i => decide (i ≠ 0)) (fun _ => 0) (fun _ => 0)

/-- Every axis non-periodic with a reflective low side, `L_full = 4`, and one global count
key `key` (`N` or `N_full`) holding `n`. -/
def pp_all_reflective (key : String) (n : Int) : GRParmParse :=
  sample_pp ["isPeriodic", "lo_boundary", "hi_boundary", "vars_parity", "L_full", key]
    (fun _ => n) (fun _ => 4) (fun _ => false) (fun _ => 2) (fun _ => 0)

/-- Scenario B with a supplied center `(5, 6, 7)`. -/
def pp_reflective_with_center : GRParmParse :=
  { pp_reflective_N1_full 32 ["center"] 1 with
    getRealDim := fun _ i => if i = 0 then 5 else if i = 1 then 6 else 7 }

/-- The full-domain count of an axis in the words of the specification: twice the
half-domain count on an axis with a reflective side, and the half-domain count itself
otherwise. -/
def spec_full_count (env : Externals) (pp : GRParmParse) (Ni : Fin CH_SPACEDIM → Int)
    (axis : Fin CH_SPACEDIM) : Int :=
  if reflective_axis env pp axis then 2 * Ni axis else Ni axis

/-- The value of `L` after lines 148-157 in double precision, given its value `L0` before
the call. -/
def grid_L_double_value (pp : GRParmParse) (maxN maxNfull : Int) (L0 : ℚ) : ℚ :=
  if pp.contains "L_full" = true then
    if 0 < pp.getReal "L_full" then
      round_double (round_double (pp.getReal "L_full" * (maxN : ℚ)) / (maxNfull : ℚ))
    else L0
  else pp.load_or GRParmParse.getReal "L" 1

/-- The object after lines 144-163 in double precision, when they do not abort. -/
def grid_L_double_result (pp : GRParmParse) (maxN maxNfull : Int) (self : ChomboParameters) :
    ChomboParameters :=
  { self with
    L := grid_L_double_value pp maxN maxNfull self.L
    coarsest_dx := round_double (grid_L_double_value pp maxN maxNfull self.L / (maxN : ℚ))
    dx := fun _ => round_double (grid_L_double_value pp maxN maxNfull self.L / (maxN : ℚ))
    origin := fun _ =>
      round_double
        (round_double (grid_L_double_value pp maxN maxNfull self.L / (maxN : ℚ)) / 2) }

/-- The double nearest to 0.1, the value that a parameter file entry `0.1` is read as. -/
def double_one_tenth : ℚ := 3602879701896397 / 2 ^ 55

/-! ## The stages of `read_params` in closed form -/

/-- The loop over the three axes, unrolled. -/
theorem FOR1M_eq {σ : Type} (body : Fin CH_SPACEDIM → σ → Result σ) (s : σ) :
    FOR1M body s = (body 0 s >>= body 1 >>= body 2) := by
  simp [FOR1M, List.finRange, List.foldlM]
  rfl

/-- The loop over the three axes that cannot abort, unrolled. -/
theorem FOR1_eq {σ : Type} (body : Fin CH_SPACEDIM → σ → σ) (s : σ) :
    FOR1 body s = body 2 (body 1 (body 0 s)) := by
  rfl

/-- One pass of the boundary loop aborts exactly when a required array is missing, and
otherwise has the effect `boundary_step`. -/
theorem boundary_body_eq (env : Externals) (pp : GRParmParse) (idir : Fin CH_SPACEDIM)
    (self : ChomboParameters) :
    boundary_body env pp idir self =
      if boundary_bad env pp idir self then Except.error ConfigError.MissingParameter
      else Except.ok (boundary_step env pp idir self) := by
  unfold boundary_body boundary_bad boundary_step boundary_reflective boundary_sommerfeld
    GRParmParse.load
  by_cases hp : self.isPeriodic idir = false
  · by_cases hr : (self.boundary_params.hi_boundary idir = env.REFLECTIVE_BC ∨
        self.boundary_params.lo_boundary idir = env.REFLECTIVE_BC)
    · by_cases hs : (self.boundary_params.hi_boundary idir = env.SOMMERFELD_BC ∨
        self.boundary_params.lo_boundary idir = env.SOMMERFELD_BC)
      · by_cases h1 : pp.contains "vars_parity" = true <;>
          by_cases h2 : pp.contains "vars_asymptotic_values" = true <;>
          simp [hp, hr, hs, h1, h2, bind, Except.bind, pure, Except.pure]
      · by_cases h1 : pp.contains "vars_parity" = true <;>
          simp [hp, hr, hs, h1, bind, Except.bind, pure, Except.pure]
    · by_cases hs : (self.boundary_params.hi_boundary idir = env.SOMMERFELD_BC ∨
        self.boundary_params.lo_boundary idir = env.SOMMERFELD_BC)
      · by_cases h2 : pp.contains "vars_asymptotic_values" = true <;>
          simp [hp, hr, hs, h2, bind, Except.bind, pure, Except.pure]
      · simp [hp, hr, hs, bind, Except.bind, pure, Except.pure]
  · simp [hp, pure, Except.pure]


@[simp] theorem boundary_step_isPeriodic (env : Externals) (pp : GRParmParse)
    (idir : Fin CH_SPACEDIM) (self : ChomboParameters) :
    (boundary_step env pp idir self).isPeriodic = self.isPeriodic := by
  unfold boundary_step; dsimp only; split_ifs <;> rfl

@[simp] theorem boundary_step_hi (env : Externals) (pp : GRParmParse)
    (idir : Fin CH_SPACEDIM) (self : ChomboParameters) :
    (boundary_step env pp idir self).boundary_params.hi_boundary =
      self.boundary_params.hi_boundary := by
  unfold boundary_step; dsimp only; split_ifs <;> rfl

@[simp] theorem boundary_step_lo (env : Externals) (pp : GRParmParse)
    (idir : Fin CH_SPACEDIM) (self : ChomboParameters) :
    (boundary_step env pp idir self).boundary_params.lo_boundary =
      self.boundary_params.lo_boundary := by
  unfold boundary_step; dsimp only; split_ifs <;> rfl

theorem boundary_step_frame (env : Externals) (pp : GRParmParse)
    (idir : Fin CH_SPACEDIM) (self : ChomboParameters) :
    ∃ a b c, boundary_step env pp idir self =
      { self with
        nonperiodic_boundaries_exist := a
        symmetric_boundaries_exist := b
        boundary_params := c } := by
  unfold boundary_step; dsimp only; split_ifs <;> exact ⟨_, _, _, rfl⟩

@[simp] theorem boundary_bad_step (env : Externals) (pp : GRParmParse)
    (i j : Fin CH_SPACEDIM) (self : ChomboParameters) :
    boundary_bad env pp i (boundary_step env pp j self) ↔ boundary_bad env pp i self := by
  simp [boundary_bad]

theorem boundary_bad_init (env : Externals) (pp : GRParmParse) (i : Fin CH_SPACEDIM)
    (self : ChomboParameters) :
    boundary_bad env pp i (boundary_init env pp self) ↔
      (periodic_in pp i = false ∧
        ((reflective_axis env pp i ∧ pp.contains "vars_parity" = false) ∨
         (sommerfeld_axis env pp i ∧ pp.contains "vars_asymptotic_values" = false))) := by
  simp only [boundary_bad, boundary_init, periodic_in, reflective_axis, sommerfeld_axis,
    hi_kind, lo_kind]
  tauto

theorem boundary_valid_iff (env : Externals) (pp : GRParmParse) (self : ChomboParameters) :
    boundary_valid env pp ↔ ∀ i, ¬ boundary_bad env pp i (boundary_init env pp self) := by
  simp only [boundary_bad_init, boundary_valid]
  constructor
  · intro h i hb
    obtain ⟨hp, hb⟩ := hb
    rcases hb with ⟨hr, hc⟩ | ⟨hs, hc⟩
    · have := (h i hp).1 hr; simp [hc] at this
    · have := (h i hp).2 hs; simp [hc] at this
  · intro h i hp
    constructor
    · intro hr
      by_contra hc
      exact h i ⟨hp, Or.inl ⟨hr, by simpa using hc⟩⟩
    · intro hs
      by_contra hc
      exact h i ⟨hp, Or.inr ⟨hs, by simpa using hc⟩⟩

/-- The boundary stage runs through exactly when `boundary_valid` holds, and then
produces `boundary_result`; otherwise a required key is missing. -/
theorem read_boundary_eq (env : Externals) (pp : GRParmParse) (self : ChomboParameters) :
    read_boundary env pp self =
      if boundary_valid env pp then Except.ok (boundary_result env pp self)
      else Except.error ConfigError.MissingParameter := by
  have hv := boundary_valid_iff env pp self
  unfold read_boundary boundary_result
  rw [FOR1M_eq]
  generalize boundary_init env pp self = s0 at hv ⊢
  by_cases h0 : boundary_bad env pp 0 s0
  · have : ¬ boundary_valid env pp := fun h => hv.1 h 0 h0
    simp [boundary_body_eq, h0, this, bind, Except.bind]
  by_cases h1 : boundary_bad env pp 1 s0
  · have : ¬ boundary_valid env pp := fun h => hv.1 h 1 h1
    simp [boundary_body_eq, h0, h1, this, bind, Except.bind]
  by_cases h2 : boundary_bad env pp 2 s0
  · have : ¬ boundary_valid env pp := fun h => hv.1 h 2 h2
    simp [boundary_body_eq, h0, h1, h2, this, bind, Except.bind]
  have : boundary_valid env pp := by
    apply hv.2
    intro i; fin_cases i <;> assumption
  simp [boundary_body_eq, h0, h1, h2, this, bind, Except.bind]


/-- Reading the global keys never aborts: a key is only loaded when it is present. -/
theorem read_global_N_eq (pp : GRParmParse) : read_global_N pp = Except.ok (global_N pp) := by
  unfold read_global_N global_N GRParmParse.load
  by_cases h1 : pp.contains "N_full" = true <;> by_cases h2 : pp.contains "N" = true <;>
    simp [h1, h2, bind, Except.bind, pure, Except.pure]

theorem global_N_cases (pp : GRParmParse) : (global_N pp).1 = -1 ∨ (global_N pp).2 = -1 := by
  unfold global_N; split_ifs <;> simp

theorem tmod_two_eq_zero_iff {x : Int} (hx : 0 < x) : Int.tmod x 2 = 0 ↔ x % 2 = 0 := by
  rw [Int.tmod_eq_emod (le_of_lt hx) (by norm_num)]

theorem tdiv_two_eq {x : Int} (hx : 0 < x) : Int.tdiv x 2 = x / 2 :=
  Int.tdiv_eq_ediv (le_of_lt hx) (by norm_num)

/-- One pass of the grid loop on a valid axis returns `axis_counts`. -/
theorem grid_axis_ok (env : Externals) (pp : GRParmParse) (bp : params_t)
    (dir : Fin CH_SPACEDIM) (hlo : bp.lo_boundary dir = lo_kind env pp dir)
    (hhi : bp.hi_boundary dir = hi_kind env pp dir) (hv : axis_valid env pp dir) :
    grid_axis env pp bp (global_N pp).1 (global_N pp).2 dir =
      Except.ok (axis_counts env pp dir) := by
  unfold axis_valid at hv
  unfold grid_axis axis_counts axis_uses_full axis_full_in axis_half_in CH_assert GRParmParse.load
  rw [hlo, hhi]
  have hrefl : (lo_kind env pp dir = env.REFLECTIVE_BC ∨ hi_kind env pp dir = env.REFLECTIVE_BC)
      ↔ reflective_axis env pp dir := Iff.rfl
  simp only [hrefl]
  by_cases h1 : 0 < (global_N pp).1
  · simp only [h1, if_true] at hv
    obtain ⟨ha, hb, hc⟩ := hv
    have h1n : ¬ (global_N pp).1 < 0 := by omega
    by_cases hr : reflective_axis env pp dir
    · have he := hc hr
      have : Int.tmod (global_N pp).1 2 = 0 := (tmod_two_eq_zero_iff h1).2 he
      simp [h1, ha, hb, hr, h1n, this, tdiv_two_eq h1, bind, Except.bind, pure, Except.pure]
    · simp [h1, ha, hb, hr, h1n, bind, Except.bind, pure, Except.pure]
  · simp only [h1, if_false] at hv
    by_cases h2 : 0 < (global_N pp).2
    · simp only [h2, if_true] at hv
      obtain ⟨ha, hb⟩ := hv
      have h2n : ¬ (global_N pp).2 < 0 := by omega
      simp [h1, h2, ha, hb, h2n, bind, Except.bind, pure, Except.pure]
    · simp only [h2, if_false] at hv
      obtain ⟨ha, hb, hc⟩ := hv
      by_cases hf : pp.contains (name_full dir) = true
      · simp only [hf, if_true] at hc
        obtain ⟨hc1, hc2, hc3⟩ := hc
        by_cases hr : reflective_axis env pp dir
        · have he := hc3 hr
          have : Int.tmod (pp.getInt (name_full dir)) 2 = 0 := (tmod_two_eq_zero_iff hc2).2 he
          simp [h1, h2, ha, hb, hf, hc1, hc2, hr, this, tdiv_two_eq hc2, bind, Except.bind,
            pure, Except.pure]
        · simp [h1, h2, ha, hb, hf, hc1, hc2, hr, bind, Except.bind, pure, Except.pure]
      · simp only [hf, if_false] at hc
        obtain ⟨hc1, hc2⟩ := hc
        simp [h1, h2, ha, hb, hf, hc1, hc2, bind, Except.bind, pure, Except.pure]

/-- One pass of the grid loop on an axis that is not valid aborts. -/
theorem grid_axis_err (env : Externals) (pp : GRParmParse) (bp : params_t)
    (dir : Fin CH_SPACEDIM) (hlo : bp.lo_boundary dir = lo_kind env pp dir)
    (hhi : bp.hi_boundary dir = hi_kind env pp dir) (hv : ¬ axis_valid env pp dir) :
    ∃ e, grid_axis env pp bp (global_N pp).1 (global_N pp).2 dir = Except.error e := by
  unfold axis_valid at hv
  unfold grid_axis CH_assert GRParmParse.load
  rw [hlo, hhi]
  have hrefl : (lo_kind env pp dir = env.REFLECTIVE_BC ∨
      hi_kind env pp dir = env.REFLECTIVE_BC) ↔ reflective_axis env pp dir := Iff.rfl
  simp only [hrefl]
  by_cases h1 : 0 < (global_N pp).1
  · have h1n : ¬ (global_N pp).1 < 0 := by omega
    simp only [h1, if_true] at hv
    by_cases ha : pp.contains (name dir) = true
    · simp [h1, h1n, ha, bind, Except.bind]
    by_cases hb : pp.contains (name_full dir) = true
    · simp [h1, h1n, ha, hb, bind, Except.bind]
    by_cases hr : reflective_axis env pp dir
    · by_cases he : (global_N pp).1 % 2 = 0
      · exact absurd ⟨by simpa using ha, by simpa using hb, fun _ => he⟩ hv
      · have : ¬ Int.tmod (global_N pp).1 2 = 0 := fun h => he ((tmod_two_eq_zero_iff h1).1 h)
        simp [h1, h1n, ha, hb, hr, this, bind, Except.bind, pure, Except.pure]
    · exact absurd ⟨by simpa using ha, by simpa using hb, fun h => absurd h hr⟩ hv
  · simp only [h1, if_false] at hv
    by_cases h2 : 0 < (global_N pp).2
    · have h2n : ¬ (global_N pp).2 < 0 := by omega
      simp only [h2, if_true] at hv
      by_cases ha : pp.contains (name dir) = true
      · simp [h1, h2, h2n, ha, bind, Except.bind]
      by_cases hb : pp.contains (name_full dir) = true
      · simp [h1, h2, h2n, ha, hb, bind, Except.bind]
      exact absurd ⟨by simpa using ha, by simpa using hb⟩ hv
    · simp only [h2, if_false] at hv
      by_cases h3 : (global_N pp).1 < 0 ∧ (global_N pp).2 < 0
      · by_cases hb : pp.contains (name_full dir) = true
        · simp only [hb, if_true] at hv
          by_cases ha : pp.contains (name dir) = true
          · simp [h1, h2, h3, ha, hb, bind, Except.bind]
          by_cases hp : 0 < pp.getInt (name_full dir)
          · by_cases hr : reflective_axis env pp dir
            · by_cases he : pp.getInt (name_full dir) % 2 = 0
              · exact absurd ⟨h3.1, h3.2, by simpa using ha, hp, fun _ => he⟩ hv
              · have : ¬ Int.tmod (pp.getInt (name_full dir)) 2 = 0 :=
                  fun h => he ((tmod_two_eq_zero_iff hp).1 h)
                simp [h1, h2, h3, ha, hb, hp, hr, this, bind, Except.bind, pure, Except.pure]
            · exact absurd ⟨h3.1, h3.2, by simpa using ha, hp, fun h => absurd h hr⟩ hv
          · simp [h1, h2, h3, ha, hb, hp, bind, Except.bind, pure, Except.pure]
        · simp only [hb, if_false] at hv
          by_cases ha : pp.contains (name dir) = true
          · by_cases hp : 0 < pp.getInt (name dir)
            · exact absurd ⟨h3.1, h3.2, ha, hp⟩ hv
            · simp [h1, h2, h3, ha, hb, hp, bind, Except.bind, pure, Except.pure]
          · simp [h1, h2, h3, ha, hb, bind, Except.bind, pure, Except.pure]
      · simp [h1, h2, h3, bind, Except.bind, pure, Except.pure]


theorem update3 {α : Type} (f : Fin CH_SPACEDIM → α) (c : Fin CH_SPACEDIM → α) :
    Function.update (Function.update (Function.update f 0 (c 0)) 1 (c 1)) 2 (c 2) = c := by
  funext d
  fin_cases d <;> rfl

/-- The grid loop when every pass returns: the three arrays hold the returned counts. -/
theorem grid_loop_ok (env : Externals) (pp : GRParmParse) (Nf N : Int)
    (s : ChomboParameters) (g : GridCounts) (c : Fin CH_SPACEDIM → Int × Int)
    (h : ∀ d, grid_axis env pp s.boundary_params Nf N d = Except.ok (c d)) :
    FOR1M (grid_body env pp Nf N) (s, g) =
      Except.ok ({ s with ivN := fun d => (c d).2 - 1 },
        { Ni_full := fun d => (c d).1, Ni := fun d => (c d).2 }) := by
  rw [FOR1M_eq]
  simp only [grid_body, h, bind, Except.bind, pure, Except.pure]
  rw [update3 s.ivN (fun d => (c d).2 - 1), update3 g.Ni_full (fun d => (c d).1),
    update3 g.Ni (fun d => (c d).2)]

/-- The grid loop aborts as soon as the pass of some axis aborts. -/
theorem grid_loop_err (env : Externals) (pp : GRParmParse) (Nf N : Int)
    (s : ChomboParameters) (g : GridCounts) (d : Fin CH_SPACEDIM) (e : ConfigError)
    (h : grid_axis env pp s.boundary_params Nf N d = Except.error e) :
    ∃ e', FOR1M (grid_body env pp Nf N) (s, g) = Except.error e' := by
  rw [FOR1M_eq]
  cases h0 : grid_axis env pp s.boundary_params Nf N 0 with
  | error e0 => simp [grid_body, h0, bind, Except.bind]
  | ok r0 =>
    cases h1 : grid_axis env pp s.boundary_params Nf N 1 with
    | error e1 => simp [grid_body, h0, h1, bind, Except.bind, pure, Except.pure]
    | ok r1 =>
      cases h2 : grid_axis env pp s.boundary_params Nf N 2 with
      | error e2 => simp [grid_body, h0, h1, h2, bind, Except.bind, pure, Except.pure]
      | ok r2 =>
        exfalso
        fin_cases d
        · exact Except.noConfusion (h0.symm.trans h)
        · exact Except.noConfusion (h1.symm.trans h)
        · exact Except.noConfusion (h2.symm.trans h)

theorem read_grid_N_ok (env : Externals) (pp : GRParmParse) (self : ChomboParameters)
    (hlo : self.boundary_params.lo_boundary = lo_kind env pp)
    (hhi : self.boundary_params.hi_boundary = hi_kind env pp) (hv : grid_valid env pp) :
    read_grid_N env pp self = Except.ok (grid_result env pp self) := by
  unfold read_grid_N CH_assert
  simp only [hv.1, not_false_eq_true, if_true, read_global_N_eq, bind, Except.bind]
  rw [grid_loop_ok env pp _ _ _ _ (axis_counts env pp)]
  · rfl
  · intro d
    exact grid_axis_ok env pp _ d (by rw [← hlo]) (by rw [← hhi]) (hv.2 d)

theorem read_grid_N_err (env : Externals) (pp : GRParmParse) (self : ChomboParameters)
    (hlo : self.boundary_params.lo_boundary = lo_kind env pp)
    (hhi : self.boundary_params.hi_boundary = hi_kind env pp) (hv : ¬ grid_valid env pp) :
    ∃ e, read_grid_N env pp self = Except.error e := by
  unfold read_grid_N CH_assert
  by_cases hb : pp.contains "N_full" = true ∧ pp.contains "N" = true
  · simp [hb, bind, Except.bind]
  · simp only [hb, not_false_eq_true, if_true, read_global_N_eq, bind, Except.bind]
    have : ¬ ∀ dir, axis_valid env pp dir := fun h => hv ⟨hb, h⟩
    push_neg at this
    obtain ⟨d, hd⟩ := this
    obtain ⟨e, he⟩ := grid_axis_err env pp self.boundary_params d (by rw [← hlo]) (by rw [← hhi]) hd
    exact grid_loop_err env pp _ _ _ _ d e he

@[simp] theorem boundary_result_lo (env : Externals) (pp : GRParmParse)
    (self : ChomboParameters) :
    (boundary_result env pp self).boundary_params.lo_boundary = lo_kind env pp := by
  simp [boundary_result, boundary_init, lo_kind]

@[simp] theorem boundary_result_hi (env : Externals) (pp : GRParmParse)
    (self : ChomboParameters) :
    (boundary_result env pp self).boundary_params.hi_boundary = hi_kind env pp := by
  simp [boundary_result, boundary_init, hi_kind]

/-- Lines 21-142 on valid keys. -/
theorem resolve_counts_ok (env : Externals) (pp : GRParmParse) (self : ChomboParameters)
    (hv : counts_valid env pp) :
    resolve_counts env pp self = Except.ok (counts_result env pp self) := by
  unfold resolve_counts counts_result
  simp only [read_boundary_eq, hv.1, if_true, bind, Except.bind]
  exact read_grid_N_ok env pp _ (by simp) (by simp) hv.2

/-- Lines 21-142 abort on keys that are not valid. -/
theorem resolve_counts_err (env : Externals) (pp : GRParmParse) (self : ChomboParameters)
    (hv : ¬ counts_valid env pp) :
    ∃ e, resolve_counts env pp self = Except.error e := by
  unfold resolve_counts
  by_cases hb : boundary_valid env pp
  · simp only [read_boundary_eq, hb, if_true, bind, Except.bind]
    exact read_grid_N_err env pp _ (by simp) (by simp) (fun h => hv ⟨hb, h⟩)
  · simp [read_boundary_eq, hb, bind, Except.bind]


/-- The length stage aborts exactly when both `L_full` and `L` are present. -/
theorem read_grid_L_eq (pp : GRParmParse) (maxN maxNfull : Int) (self : ChomboParameters) :
    read_grid_L pp maxN maxNfull self =
      if pp.contains "L_full" = true ∧ pp.contains "L" = true then
        Except.error ConfigError.AssertionFailed
      else Except.ok (grid_L_result pp maxN maxNfull self) := by
  unfold read_grid_L read_L_keys CH_assert GRParmParse.load grid_L_result grid_L_value
  by_cases h1 : pp.contains "L_full" = true
  · by_cases h2 : pp.contains "L" = true
    · simp [h1, h2, bind, Except.bind, pure, Except.pure]
    · by_cases h3 : 0 < pp.getReal "L_full" <;>
        simp [h1, h2, h3, bind, Except.bind, pure, Except.pure]
  · by_cases h3 : 0 < (-1 : ℚ)
    · norm_num at h3
    · simp [h1, h3, bind, Except.bind, pure, Except.pure]

/-- Lines 184-204 abort exactly when one of the three required keys is missing. -/
theorem read_misc_eq (pp : GRParmParse) (self : ChomboParameters) :
    read_misc pp self =
      if misc_valid pp then Except.ok (misc_result pp self)
      else Except.error ConfigError.MissingParameter := by
  unfold read_misc misc_valid misc_result GRParmParse.getarr GRParmParse.load
  by_cases h1 : pp.contains "regrid_interval" = true <;>
    by_cases h2 : pp.contains "chk_prefix" = true <;>
    by_cases h3 : pp.contains "plot_prefix" = true <;>
    simp [h1, h2, h3, bind, Except.bind, pure, Except.pure]

/-- The box stage never aborts. -/
theorem read_box_eq (pp : GRParmParse) (self : ChomboParameters) :
    read_box pp self = Except.ok (box_result pp self) := by
  unfold read_box box_result box_max_grid_size box_block_factor GRParmParse.load
    GRParmParse.load_or
  by_cases h1 : pp.contains "max_grid_size" = true <;>
    by_cases h2 : pp.contains "block_factor" = true <;>
    simp [h1, h2, bind, Except.bind, pure, Except.pure]

/-- The plot variable stage aborts exactly when `num_plot_vars` is negative. -/
theorem read_plot_vars_eq (env : Externals) (pp : GRParmParse) (self : ChomboParameters) :
    read_plot_vars env pp self =
      if plot_count_valid pp then Except.ok (plot_vars_result env pp self)
      else Except.error ConfigError.LengthError := by
  unfold read_plot_vars plot_count_valid plot_vars_result
  by_cases h : pp.load_or GRParmParse.getInt "num_plot_vars" 0 < 0
  · have h' : ¬ 0 ≤ pp.load_or GRParmParse.getInt "num_plot_vars" 0 := by omega
    simp [h, h', bind, Except.bind, throw, throwThe, MonadExceptOf.throw]
  · have h' : 0 ≤ pp.load_or GRParmParse.getInt "num_plot_vars" 0 := by omega
    simp [h, h', bind, Except.bind, pure, Except.pure]

theorem resolve_rest_ok (env : Externals) (pp : GRParmParse)
    (sg : ChomboParameters × GridCounts) (hv : rest_valid pp) :
    resolve_rest env pp sg = Except.ok (rest_result env pp sg) := by
  unfold resolve_rest rest_result
  simp only [read_grid_L_eq, read_misc_eq, read_plot_vars_eq, read_box_eq, hv.1, hv.2.1,
    hv.2.2, if_true, if_false, bind, Except.bind]

theorem resolve_rest_err (env : Externals) (pp : GRParmParse)
    (sg : ChomboParameters × GridCounts) (hv : ¬ rest_valid pp) :
    ∃ e, resolve_rest env pp sg = Except.error e := by
  unfold resolve_rest
  by_cases h1 : pp.contains "L_full" = true ∧ pp.contains "L" = true
  · simp [read_grid_L_eq, h1, bind, Except.bind]
  · by_cases h2 : misc_valid pp
    · have h3 : ¬ plot_count_valid pp := fun h => hv ⟨h1, h2, h⟩
      simp [read_grid_L_eq, read_misc_eq, read_plot_vars_eq, h1, h2, h3, bind, Except.bind]
    · simp [read_grid_L_eq, read_misc_eq, h1, h2, bind, Except.bind]

/-- On valid keys `read_params` returns `params_result`. -/
theorem read_params_ok (env : Externals) (pp : GRParmParse) (self : ChomboParameters)
    (hv : params_valid env pp) :
    read_params env pp self = Except.ok (params_result env pp self) := by
  unfold read_params params_result
  simp only [resolve_counts_ok env pp self hv.1, bind, Except.bind]
  exact resolve_rest_ok env pp _ hv.2

/-- On keys that are not valid `read_params` aborts. -/
theorem read_params_err (env : Externals) (pp : GRParmParse) (self : ChomboParameters)
    (hv : ¬ params_valid env pp) :
    ∃ e, read_params env pp self = Except.error e := by
  unfold read_params
  by_cases hc : counts_valid env pp
  · simp only [resolve_counts_ok env pp self hc, bind, Except.bind]
    exact resolve_rest_err env pp _ (fun h => hv ⟨hc, h⟩)
  · obtain ⟨e, he⟩ := resolve_counts_err env pp self hc
    exact ⟨e, by simp [he, bind, Except.bind]⟩

/-- The function `read_params` succeeds exactly on the valid parameter sources. -/
theorem read_params_ok_iff (env : Externals) (pp : GRParmParse) (self : ChomboParameters) :
    (∃ r, read_params env pp self = Except.ok r) ↔ params_valid env pp := by
  constructor
  · rintro ⟨r, hr⟩
    by_contra hv
    obtain ⟨e, he⟩ := read_params_err env pp self hv
    rw [he] at hr
    cases hr
  · intro hv
    exact ⟨_, read_params_ok env pp self hv⟩


theorem center_body_eq (env : Externals) (Ni : Fin CH_SPACEDIM → Int) (i : Fin CH_SPACEDIM)
    (s : ChomboParameters) :
    center_body env Ni i s =
      { s with center := Function.update s.center i (center_cell env Ni i s) } := by
  unfold center_body center_cell
  split_ifs <;> simp [Function.update_eq_self]

/-- The center stage only writes `center`, with the value `center_value`. -/
theorem read_center_eq (env : Externals) (pp : GRParmParse) (Ni : Fin CH_SPACEDIM → Int)
    (s : ChomboParameters) :
    read_center env pp Ni s = { s with center := center_value env pp Ni s } := by
  unfold read_center
  rw [FOR1_eq]
  simp only [center_body_eq]
  congr 1
  exact update3 _ (center_value env pp Ni s)


@[simp] theorem boundary_step_L (env : Externals) (pp : GRParmParse)
    (idir : Fin CH_SPACEDIM) (self : ChomboParameters) :
    (boundary_step env pp idir self).L = self.L := by
  unfold boundary_step; dsimp only; split_ifs <;> rfl

@[simp] theorem boundary_result_L (env : Externals) (pp : GRParmParse)
    (self : ChomboParameters) : (boundary_result env pp self).L = self.L := by
  simp [boundary_result, boundary_init]

@[simp] theorem counts_result_Ni (env : Externals) (pp : GRParmParse) (self : ChomboParameters)
    (d : Fin CH_SPACEDIM) : (counts_result env pp self).2.Ni d = (axis_counts env pp d).2 :=
  rfl

@[simp] theorem counts_result_Ni_full (env : Externals) (pp : GRParmParse)
    (self : ChomboParameters) (d : Fin CH_SPACEDIM) :
    (counts_result env pp self).2.Ni_full d = (axis_counts env pp d).1 :=
  rfl

@[simp] theorem counts_result_ivN (env : Externals) (pp : GRParmParse)
    (self : ChomboParameters) (d : Fin CH_SPACEDIM) :
    (counts_result env pp self).1.ivN d = (axis_counts env pp d).2 - 1 :=
  rfl

@[simp] theorem counts_result_lo (env : Externals) (pp : GRParmParse)
    (self : ChomboParameters) :
    (counts_result env pp self).1.boundary_params.lo_boundary = lo_kind env pp := by
  simp [counts_result, grid_result]

@[simp] theorem counts_result_hi (env : Externals) (pp : GRParmParse)
    (self : ChomboParameters) :
    (counts_result env pp self).1.boundary_params.hi_boundary = hi_kind env pp := by
  simp [counts_result, grid_result]

@[simp] theorem counts_result_L (env : Externals) (pp : GRParmParse)
    (self : ChomboParameters) : (counts_result env pp self).1.L = self.L := by
  simp [counts_result, grid_result, read_general]

/-- Line 142: `ivN.max() + 1` is the largest half-domain count. -/
theorem max_element_sub_one (a : Fin CH_SPACEDIM → Int) :
    max_element (fun d => a d - 1) + 1 = max_element a := by
  unfold max_element
  simp only [max_def]
  split_ifs <;> omega

theorem max_N_counts_result (env : Externals) (pp : GRParmParse) (self : ChomboParameters) :
    max_N (counts_result env pp self).1 = max_element (counts_result env pp self).2.Ni := by
  unfold max_N
  exact max_element_sub_one _

theorem max_element_ge (a : Fin CH_SPACEDIM → Int) (d : Fin CH_SPACEDIM) :
    a d ≤ max_element a := by
  unfold max_element
  fin_cases d
  · exact le_trans (le_max_left _ _) (le_max_left _ _)
  · exact le_trans (le_max_right _ _) (le_max_left _ _)
  · exact le_max_right _ _

theorem max_element_mem (a : Fin CH_SPACEDIM → Int) : ∃ d, max_element a = a d := by
  unfold max_element
  simp only [max_def]
  split_ifs
  · exact ⟨2, rfl⟩
  · exact ⟨1, rfl⟩
  · exact ⟨2, rfl⟩
  · exact ⟨0, rfl⟩

@[simp] theorem params_result_ivN (env : Externals) (pp : GRParmParse)
    (self : ChomboParameters) (d : Fin CH_SPACEDIM) :
    (params_result env pp self).ivN d = (axis_counts env pp d).2 - 1 := by
  unfold params_result rest_result
  rw [read_center_eq]
  rfl

theorem params_result_L (env : Externals) (pp : GRParmParse) (self : ChomboParameters) :
    (params_result env pp self).L =
      grid_L_value pp (max_N (counts_result env pp self).1)
        (max_N_full (counts_result env pp self).2) self.L := by
  unfold params_result rest_result
  rw [read_center_eq]
  show grid_L_value pp _ _ (counts_result env pp self).1.L = _
  rw [counts_result_L]

theorem params_result_coarsest_dx (env : Externals) (pp : GRParmParse)
    (self : ChomboParameters) :
    (params_result env pp self).coarsest_dx =
      (params_result env pp self).L / (max_N (counts_result env pp self).1 : ℚ) := by
  unfold params_result rest_result
  rw [read_center_eq]
  rfl

theorem params_result_center (env : Externals) (pp : GRParmParse) (self : ChomboParameters)
    (d : Fin CH_SPACEDIM) :
    (params_result env pp self).center d =
      if lo_kind env pp d = env.REFLECTIVE_BC then 0
      else if hi_kind env pp d = env.REFLECTIVE_BC then
        (params_result env pp self).coarsest_dx * ((counts_result env pp self).2.Ni d : ℚ)
      else
        pp.load_or GRParmParse.getRealDim "center"
          (fun i => (1 / 2 : ℚ) * ((counts_result env pp self).2.Ni i : ℚ) *
            (params_result env pp self).coarsest_dx) d := by
  unfold params_result rest_result
  rw [read_center_eq]
  show center_value env pp _ _ d = _
  unfold center_value
  simp only [grid_L_result, counts_result_lo, counts_result_hi]
  rfl

/-- A valid axis resolves to positive half-domain and full-domain counts. -/
theorem axis_counts_pos (env : Externals) (pp : GRParmParse) (d : Fin CH_SPACEDIM)
    (hv : axis_valid env pp d) :
    1 ≤ (axis_counts env pp d).2 ∧ 1 ≤ (axis_counts env pp d).1 := by
  unfold axis_valid at hv
  unfold axis_counts axis_uses_full axis_full_in axis_half_in
  by_cases h1 : 0 < (global_N pp).1
  · simp only [h1, if_true] at hv
    by_cases hr : reflective_axis env pp d
    · have := hv.2.2 hr
      refine ⟨?_, ?_⟩ <;> simp [h1, hr] <;> omega
    · refine ⟨?_, ?_⟩ <;> simp [h1, hr] <;> omega
  · simp only [h1, if_false] at hv
    by_cases h2 : 0 < (global_N pp).2
    · refine ⟨?_, ?_⟩ <;> simp [h1, h2] <;> omega
    · simp only [h2, if_false] at hv
      obtain ⟨_, _, hc⟩ := hv
      by_cases hf : pp.contains (name_full d) = true
      · simp only [hf, if_true] at hc
        obtain ⟨_, hp, he⟩ := hc
        by_cases hr : reflective_axis env pp d
        · have := he hr
          refine ⟨?_, ?_⟩ <;> simp [h1, h2, hf, hr] <;> omega
        · refine ⟨?_, ?_⟩ <;> simp [h1, h2, hf, hr] <;> omega
      · simp only [hf, if_false] at hc
        obtain ⟨_, hp⟩ := hc
        refine ⟨?_, ?_⟩ <;> simp [h1, h2, hf] <;> omega


theorem read_params_ok_inv (env : Externals) (pp : GRParmParse) (self r : ChomboParameters)
    (h : read_params env pp self = Except.ok r) :
    params_valid env pp ∧ r = params_result env pp self := by
  have hv : params_valid env pp := (read_params_ok_iff env pp self).1 ⟨r, h⟩
  rw [read_params_ok env pp self hv] at h
  exact ⟨hv, (Except.ok.inj h).symm⟩

theorem resolve_counts_ok_inv (env : Externals) (pp : GRParmParse) (self : ChomboParameters)
    (sg : ChomboParameters × GridCounts) (h : resolve_counts env pp self = Except.ok sg) :
    counts_valid env pp ∧ sg = counts_result env pp self := by
  have hv : counts_valid env pp := by
    by_contra hv
    obtain ⟨e, he⟩ := resolve_counts_err env pp self hv
    rw [he] at h
    cases h
  rw [resolve_counts_ok env pp self hv] at h
  exact ⟨hv, (Except.ok.inj h).symm⟩

theorem global_N_of_full (pp : GRParmParse) (h : pp.contains "N_full" = true) :
    global_N pp = (pp.getInt "N_full", -1) := by
  simp [global_N, h]

theorem global_N_of_half (pp : GRParmParse) (h1 : pp.contains "N_full" = false)
    (h : pp.contains "N" = true) : global_N pp = (-1, pp.getInt "N") := by
  simp [global_N, h1, h]

theorem global_N_of_none (pp : GRParmParse) (h1 : pp.contains "N_full" = false)
    (h : pp.contains "N" = false) : global_N pp = (-1, -1) := by
  simp [global_N, h1, h]

/-- What a valid axis resolves to when a full-domain count is supplied for it. -/
theorem axis_full_supplied (env : Externals) (pp : GRParmParse) (axis : Fin CH_SPACEDIM)
    (f : Int) (hf : 0 < f) (hsup : full_count_supplied pp axis f)
    (hboth : ¬(pp.contains (name axis) = true ∧ pp.contains (name_full axis) = true))
    (hglob : (pp.contains "N_full" = true ∨ pp.contains "N" = true) →
      pp.contains (name axis) = false ∧ pp.contains (name_full axis) = false) :
    (axis_valid env pp axis ↔ (reflective_axis env pp axis → f % 2 = 0)) ∧
    axis_counts env pp axis = (f, if reflective_axis env pp axis then f / 2 else f) := by
  rcases hsup with ⟨h1, h2⟩ | ⟨h1, h2, h3, h4⟩
  · have hg := global_N_of_full pp h1
    obtain ⟨ha, hb⟩ := hglob (Or.inl h1)
    subst h2
    constructor
    · simp [axis_valid, hg, hf, ha, hb]
    · simp [axis_counts, axis_uses_full, axis_full_in, hg, hf]
  · have hg := global_N_of_none pp h1 h2
    have ha : pp.contains (name axis) = false := by
      by_contra h
      exact hboth ⟨by simpa using h, h3⟩
    subst h4
    constructor
    · simp [axis_valid, hg, h3, ha, hf]
    · simp [axis_counts, axis_uses_full, axis_full_in, hg, h3]

/-- What a valid axis resolves to when a half-domain count is supplied for it. -/
theorem axis_half_supplied (env : Externals) (pp : GRParmParse) (axis : Fin CH_SPACEDIM)
    (k : Int) (hk : 0 < k) (hsup : half_count_supplied pp axis k)
    (hN : ¬(pp.contains "N_full" = true ∧ pp.contains "N" = true))
    (hboth : ¬(pp.contains (name axis) = true ∧ pp.contains (name_full axis) = true))
    (hglob : (pp.contains "N_full" = true ∨ pp.contains "N" = true) →
      pp.contains (name axis) = false ∧ pp.contains (name_full axis) = false) :
    axis_valid env pp axis ∧ axis_counts env pp axis = (k, k) := by
  rcases hsup with ⟨h1, h2⟩ | ⟨h1, h2, h3, h4⟩
  · have h0 : pp.contains "N_full" = false := by
      by_contra h
      exact hN ⟨by simpa using h, h1⟩
    have hg := global_N_of_half pp h0 h1
    obtain ⟨ha, hb⟩ := hglob (Or.inr h1)
    subst h2
    constructor
    · simp [axis_valid, hg, hk, ha, hb]
    · simp [axis_counts, axis_uses_full, axis_half_in, hg, hk]
  · have hg := global_N_of_none pp h1 h2
    have hb : pp.contains (name_full axis) = false := by
      by_contra h
      exact hboth ⟨h3, by simpa using h⟩
    subst h4
    constructor
    · simp [axis_valid, hg, h3, hb, hk]
    · simp [axis_counts, axis_uses_full, axis_half_in, hg, hb]

theorem params_valid_of_except (env : Externals) (pp : GRParmParse) (axis : Fin CH_SPACEDIM)
    (hv : valid_except_axis env pp axis) (ha : axis_valid env pp axis) :
    params_valid env pp := by
  obtain ⟨h1, h2, h3, _, _, h6, _⟩ := hv
  refine ⟨⟨h1, h2, ?_⟩, h6⟩
  intro j
  by_cases hj : j = axis
  · rw [hj]; exact ha
  · exact h3 j hj


/-- On a successful grid-count resolution `max_N` and `max_N_full` are at least 1. -/
theorem counts_valid_max_N_pos (env : Externals) (pp : GRParmParse) (self : ChomboParameters)
    (hv : counts_valid env pp) :
    1 ≤ max_N (counts_result env pp self).1 ∧ 1 ≤ max_N_full (counts_result env pp self).2 := by
  constructor
  · rw [max_N_counts_result]
    have h1 := max_element_ge (counts_result env pp self).2.Ni 0
    have h2 := (axis_counts_pos env pp 0 (hv.2.2 0)).1
    rw [counts_result_Ni] at h1
    omega
  · unfold max_N_full
    have h1 := max_element_ge (counts_result env pp self).2.Ni_full 0
    have h2 := (axis_counts_pos env pp 0 (hv.2.2 0)).2
    rw [counts_result_Ni_full] at h1
    omega

@[simp] theorem params_result_boundary_params (env : Externals) (pp : GRParmParse)
    (self : ChomboParameters) :
    (params_result env pp self).boundary_params =
      (counts_result env pp self).1.boundary_params := by
  unfold params_result rest_result
  rw [read_center_eq]
  rfl

/-- A statement about some axis is a statement about axis 0, 1 or 2. -/
theorem exists_axis (P : Fin CH_SPACEDIM → Prop) : (∃ i, P i) ↔ P 0 ∨ P 1 ∨ P 2 := by
  constructor
  · rintro ⟨i, h⟩
    fin_cases i
    · exact Or.inl h
    · exact Or.inr (Or.inl h)
    · exact Or.inr (Or.inr h)
  · rintro (h | h | h)
    · exact ⟨0, h⟩
    · exact ⟨1, h⟩
    · exact ⟨2, h⟩

/-- A statement about every axis is a statement about the axes 0, 1 and 2. -/
theorem forall_axis (P : Fin CH_SPACEDIM → Prop) : (∀ i, P i) ↔ P 0 ∧ P 1 ∧ P 2 := by
  constructor
  · intro h
    exact ⟨h 0, h 1, h 2⟩
  · rintro ⟨h0, h1, h2⟩ i
    fin_cases i
    · exact h0
    · exact h1
    · exact h2

theorem boundary_step_nonperiodic (env : Externals) (pp : GRParmParse)
    (idir : Fin CH_SPACEDIM) (self : ChomboParameters) :
    (boundary_step env pp idir self).nonperiodic_boundaries_exist =
      (self.nonperiodic_boundaries_exist || !self.isPeriodic idir) := by
  by_cases hp : self.isPeriodic idir = false <;>
    by_cases hr : (self.boundary_params.hi_boundary idir = env.REFLECTIVE_BC ∨
      self.boundary_params.lo_boundary idir = env.REFLECTIVE_BC) <;>
    by_cases hs : (self.boundary_params.hi_boundary idir = env.SOMMERFELD_BC ∨
      self.boundary_params.lo_boundary idir = env.SOMMERFELD_BC) <;>
    simp [boundary_step, hp, hr, hs]

theorem boundary_step_symmetric (env : Externals) (pp : GRParmParse)
    (idir : Fin CH_SPACEDIM) (self : ChomboParameters) :
    (boundary_step env pp idir self).symmetric_boundaries_exist =
      (self.symmetric_boundaries_exist ||
        (!self.isPeriodic idir &&
          decide (self.boundary_params.hi_boundary idir = env.REFLECTIVE_BC ∨
            self.boundary_params.lo_boundary idir = env.REFLECTIVE_BC))) := by
  by_cases hp : self.isPeriodic idir = false <;>
    by_cases hr : (self.boundary_params.hi_boundary idir = env.REFLECTIVE_BC ∨
      self.boundary_params.lo_boundary idir = env.REFLECTIVE_BC) <;>
    by_cases hs : (self.boundary_params.hi_boundary idir = env.SOMMERFELD_BC ∨
      self.boundary_params.lo_boundary idir = env.SOMMERFELD_BC) <;>
    simp [boundary_step, hp, hr, hs]

theorem boundary_step_is_periodic (env : Externals) (pp : GRParmParse)
    (idir : Fin CH_SPACEDIM) (self : ChomboParameters) :
    (boundary_step env pp idir self).boundary_params.is_periodic =
      if self.isPeriodic idir = false then
        Function.update self.boundary_params.is_periodic idir false
      else self.boundary_params.is_periodic := by
  by_cases hp : self.isPeriodic idir = false <;>
    by_cases hr : (self.boundary_params.hi_boundary idir = env.REFLECTIVE_BC ∨
      self.boundary_params.lo_boundary idir = env.REFLECTIVE_BC) <;>
    by_cases hs : (self.boundary_params.hi_boundary idir = env.SOMMERFELD_BC ∨
      self.boundary_params.lo_boundary idir = env.SOMMERFELD_BC) <;>
    simp [boundary_step, hp, hr, hs]

theorem boundary_step_vars_parity (env : Externals) (pp : GRParmParse)
    (idir : Fin CH_SPACEDIM) (self : ChomboParameters) :
    (boundary_step env pp idir self).boundary_params.vars_parity =
      if self.isPeriodic idir = false ∧
          (self.boundary_params.hi_boundary idir = env.REFLECTIVE_BC ∨
            self.boundary_params.lo_boundary idir = env.REFLECTIVE_BC) then
        pp.getIntArr "vars_parity"
      else self.boundary_params.vars_parity := by
  by_cases hp : self.isPeriodic idir = false <;>
    by_cases hr : (self.boundary_params.hi_boundary idir = env.REFLECTIVE_BC ∨
      self.boundary_params.lo_boundary idir = env.REFLECTIVE_BC) <;>
    by_cases hs : (self.boundary_params.hi_boundary idir = env.SOMMERFELD_BC ∨
      self.boundary_params.lo_boundary idir = env.SOMMERFELD_BC) <;>
    simp [boundary_step, hp, hr, hs]

theorem boundary_step_vars_asymptotic_values (env : Externals) (pp : GRParmParse)
    (idir : Fin CH_SPACEDIM) (self : ChomboParameters) :
    (boundary_step env pp idir self).boundary_params.vars_asymptotic_values =
      if self.isPeriodic idir = false ∧
          (self.boundary_params.hi_boundary idir = env.SOMMERFELD_BC ∨
            self.boundary_params.lo_boundary idir = env.SOMMERFELD_BC) then
        pp.getRealArr "vars_asymptotic_values"
      else self.boundary_params.vars_asymptotic_values := by
  by_cases hp : self.isPeriodic idir = false <;>
    by_cases hr : (self.boundary_params.hi_boundary idir = env.REFLECTIVE_BC ∨
      self.boundary_params.lo_boundary idir = env.REFLECTIVE_BC) <;>
    by_cases hs : (self.boundary_params.hi_boundary idir = env.SOMMERFELD_BC ∨
      self.boundary_params.lo_boundary idir = env.SOMMERFELD_BC) <;>
    simp [boundary_step, hp, hr, hs]

@[simp] theorem boundary_step_plot_vars (env : Externals) (pp : GRParmParse)
    (idir : Fin CH_SPACEDIM) (self : ChomboParameters) :
    (boundary_step env pp idir self).plot_vars = self.plot_vars := by
  unfold boundary_step; dsimp only; split_ifs <;> rfl

@[simp] theorem boundary_result_isPeriodic (env : Externals) (pp : GRParmParse)
    (self : ChomboParameters) : (boundary_result env pp self).isPeriodic = periodic_in pp := by
  simp [boundary_result, boundary_init, periodic_in]

@[simp] theorem boundary_result_plot_vars (env : Externals) (pp : GRParmParse)
    (self : ChomboParameters) : (boundary_result env pp self).plot_vars = self.plot_vars := by
  simp [boundary_result, boundary_init]

/-- After the boundary stage `nonperiodic_boundaries_exist` says that some axis is not
periodic. -/
theorem boundary_result_nonperiodic (env : Externals) (pp : GRParmParse)
    (self : ChomboParameters) :
    (boundary_result env pp self).nonperiodic_boundaries_exist = true ↔
      ∃ i, periodic_in pp i = false := by
  rw [exists_axis]
  simp only [boundary_result, boundary_step_nonperiodic, boundary_step_isPeriodic]
  have h : (boundary_init env pp self).isPeriodic = periodic_in pp := rfl
  have h' : (boundary_init env pp self).nonperiodic_boundaries_exist = false := rfl
  rw [h, h']
  cases periodic_in pp 0 <;> cases periodic_in pp 1 <;> cases periodic_in pp 2 <;> simp

/-- After the boundary stage `symmetric_boundaries_exist` says that some non-periodic axis
has a reflective side. -/
theorem boundary_result_symmetric (env : Externals) (pp : GRParmParse)
    (self : ChomboParameters) :
    (boundary_result env pp self).symmetric_boundaries_exist = true ↔
      ∃ i, periodic_in pp i = false ∧ reflective_axis env pp i := by
  rw [exists_axis]
  simp only [boundary_result, boundary_step_symmetric, boundary_step_isPeriodic,
    boundary_step_hi, boundary_step_lo]
  have h : (boundary_init env pp self).isPeriodic = periodic_in pp := rfl
  have h' : (boundary_init env pp self).symmetric_boundaries_exist = false := rfl
  have hlo : (boundary_init env pp self).boundary_params.lo_boundary = lo_kind env pp := rfl
  have hhi : (boundary_init env pp self).boundary_params.hi_boundary = hi_kind env pp := rfl
  rw [h, h', hlo, hhi]
  simp only [reflective_axis]
  cases periodic_in pp 0 <;> cases periodic_in pp 1 <;> cases periodic_in pp 2 <;>
    simp <;> tauto

/-- After the boundary stage `boundary_params.is_periodic` is the input `isPeriodic`. -/
theorem boundary_result_is_periodic (env : Externals) (pp : GRParmParse)
    (self : ChomboParameters) :
    (boundary_result env pp self).boundary_params.is_periodic = periodic_in pp := by
  simp only [boundary_result, boundary_step_is_periodic, boundary_step_isPeriodic]
  have h : (boundary_init env pp self).isPeriodic = periodic_in pp := rfl
  have h' : (boundary_init env pp self).boundary_params.is_periodic = fun _ => true := rfl
  rw [h, h']
  funext i
  revert i
  rw [forall_axis]
  have e10 : ((1 : Fin CH_SPACEDIM) = 0) = False := by decide
  have e20 : ((2 : Fin CH_SPACEDIM) = 0) = False := by decide
  have e21 : ((2 : Fin CH_SPACEDIM) = 1) = False := by decide
  have e01 : ((0 : Fin CH_SPACEDIM) = 1) = False := by decide
  have e02 : ((0 : Fin CH_SPACEDIM) = 2) = False := by decide
  have e12 : ((1 : Fin CH_SPACEDIM) = 2) = False := by decide
  cases h0 : periodic_in pp 0 <;> cases h1 : periodic_in pp 1 <;>
    cases h2 : periodic_in pp 2 <;>
    simp [Function.update, e10, e20, e21, e01, e02, e12]

/-- After the boundary stage `vars_parity` is the stored array when some non-periodic axis
has a reflective side, and the default otherwise. -/
theorem boundary_result_vars_parity (env : Externals) (pp : GRParmParse)
    (self : ChomboParameters) :
    (boundary_result env pp self).boundary_params.vars_parity =
      if ∃ i, periodic_in pp i = false ∧ reflective_axis env pp i then
        pp.getIntArr "vars_parity"
      else List.replicate env.NUM_VARS env.EVEN := by
  simp only [boundary_result, boundary_step_vars_parity, boundary_step_isPeriodic,
    boundary_step_hi, boundary_step_lo]
  have h : (boundary_init env pp self).isPeriodic = periodic_in pp := rfl
  have h' : (boundary_init env pp self).boundary_params.vars_parity =
      List.replicate env.NUM_VARS env.EVEN := rfl
  have hlo : (boundary_init env pp self).boundary_params.lo_boundary = lo_kind env pp := rfl
  have hhi : (boundary_init env pp self).boundary_params.hi_boundary = hi_kind env pp := rfl
  rw [h, h', hlo, hhi]
  have hr : ∀ i, (hi_kind env pp i = env.REFLECTIVE_BC ∨ lo_kind env pp i = env.REFLECTIVE_BC)
      ↔ reflective_axis env pp i := fun i => Or.comm
  simp only [hr]
  by_cases h0 : periodic_in pp 0 = false ∧ reflective_axis env pp 0 <;>
    by_cases h1 : periodic_in pp 1 = false ∧ reflective_axis env pp 1 <;>
    by_cases h2 : periodic_in pp 2 = false ∧ reflective_axis env pp 2 <;>
    simp [exists_axis, h0, h1, h2]

/-- After the boundary stage `vars_asymptotic_values` is the stored array when some
non-periodic axis has a Sommerfeld side, and the default otherwise. -/
theorem boundary_result_vars_asymptotic_values (env : Externals) (pp : GRParmParse)
    (self : ChomboParameters) :
    (boundary_result env pp self).boundary_params.vars_asymptotic_values =
      if ∃ i, periodic_in pp i = false ∧ sommerfeld_axis env pp i then
        pp.getRealArr "vars_asymptotic_values"
      else List.replicate env.NUM_VARS 0 := by
  simp only [boundary_result, boundary_step_vars_asymptotic_values, boundary_step_isPeriodic,
    boundary_step_hi, boundary_step_lo]
  have h : (boundary_init env pp self).isPeriodic = periodic_in pp := rfl
  have h' : (boundary_init env pp self).boundary_params.vars_asymptotic_values =
      List.replicate env.NUM_VARS 0 := rfl
  have hlo : (boundary_init env pp self).boundary_params.lo_boundary = lo_kind env pp := rfl
  have hhi : (boundary_init env pp self).boundary_params.hi_boundary = hi_kind env pp := rfl
  rw [h, h', hlo, hhi]
  have hr : ∀ i, (hi_kind env pp i = env.SOMMERFELD_BC ∨ lo_kind env pp i = env.SOMMERFELD_BC)
      ↔ sommerfeld_axis env pp i := fun i => Or.comm
  simp only [hr]
  by_cases h0 : periodic_in pp 0 = false ∧ sommerfeld_axis env pp 0 <;>
    by_cases h1 : periodic_in pp 1 = false ∧ sommerfeld_axis env pp 1 <;>
    by_cases h2 : periodic_in pp 2 = false ∧ sommerfeld_axis env pp 2 <;>
    simp [exists_axis, h0, h1, h2]

/-- The boundary stage fails exactly when a required array is missing. -/
theorem boundary_valid_iff_arrays (env : Externals) (pp : GRParmParse) :
    ¬ boundary_valid env pp ↔
      ((∃ i, periodic_in pp i = false ∧ reflective_axis env pp i) ∧
          pp.contains "vars_parity" = false) ∨
      ((∃ i, periodic_in pp i = false ∧ sommerfeld_axis env pp i) ∧
          pp.contains "vars_asymptotic_values" = false) := by
  unfold boundary_valid
  constructor
  · intro h
    push_neg at h
    obtain ⟨i, hp, hi⟩ := h
    by_cases hr : reflective_axis env pp i ∧ pp.contains "vars_parity" = false
    · exact Or.inl ⟨⟨i, hp, hr.1⟩, hr.2⟩
    · right
      have hr' : reflective_axis env pp i → pp.contains "vars_parity" = true := by
        intro h1
        by_contra h2
        exact hr ⟨h1, by simpa using h2⟩
      obtain ⟨hs, hc⟩ := hi hr'
      exact ⟨⟨i, hp, hs⟩, by simpa using hc⟩
  · rintro (⟨⟨i, hp, hr⟩, hc⟩ | ⟨⟨i, hp, hs⟩, hc⟩) h
    · have := (h i hp).1 hr
      rw [hc] at this
      cases this
    · have := (h i hp).2 hs
      rw [hc] at this
      cases this


/-- A pass of the boundary loop on an axis that needs neither array does not look at the
parameter source. -/
theorem boundary_step_congr (env : Externals) (pp pp' : GRParmParse)
    (idir : Fin CH_SPACEDIM) (self : ChomboParameters)
    (h1 : ¬(self.isPeriodic idir = false ∧
      (self.boundary_params.hi_boundary idir = env.REFLECTIVE_BC ∨
        self.boundary_params.lo_boundary idir = env.REFLECTIVE_BC)))
    (h2 : ¬(self.isPeriodic idir = false ∧
      (self.boundary_params.hi_boundary idir = env.SOMMERFELD_BC ∨
        self.boundary_params.lo_boundary idir = env.SOMMERFELD_BC))) :
    boundary_step env pp idir self = boundary_step env pp' idir self := by
  by_cases hp : self.isPeriodic idir = false
  · have hr : ¬(self.boundary_params.hi_boundary idir = env.REFLECTIVE_BC ∨
        self.boundary_params.lo_boundary idir = env.REFLECTIVE_BC) := fun h => h1 ⟨hp, h⟩
    have hs : ¬(self.boundary_params.hi_boundary idir = env.SOMMERFELD_BC ∨
        self.boundary_params.lo_boundary idir = env.SOMMERFELD_BC) := fun h => h2 ⟨hp, h⟩
    simp [boundary_step, hp, hr, hs]
  · simp [boundary_step, hp]

/-- When no array is required the result of the boundary stage depends on the parameter
source only through `isPeriodic`, `lo_boundary` and `hi_boundary`. -/
theorem boundary_result_congr (env : Externals) (pp pp' : GRParmParse)
    (self : ChomboParameters)
    (hp : periodic_in pp' = periodic_in pp) (hlo : lo_kind env pp' = lo_kind env pp)
    (hhi : hi_kind env pp' = hi_kind env pp)
    (h1 : ¬ ∃ i, periodic_in pp i = false ∧ reflective_axis env pp i)
    (h2 : ¬ ∃ i, periodic_in pp i = false ∧ sommerfeld_axis env pp i) :
    boundary_result env pp' self = boundary_result env pp self := by
  have hinit : boundary_init env pp' self = boundary_init env pp self := by
    unfold periodic_in at hp
    unfold lo_kind at hlo
    unfold hi_kind at hhi
    unfold boundary_init
    simp only [hp, hlo, hhi]
  have hP : (boundary_init env pp self).isPeriodic = periodic_in pp := rfl
  have hL : (boundary_init env pp self).boundary_params.lo_boundary = lo_kind env pp := rfl
  have hH : (boundary_init env pp self).boundary_params.hi_boundary = hi_kind env pp := rfl
  have hr : ∀ i, ¬(periodic_in pp i = false ∧
      (hi_kind env pp i = env.REFLECTIVE_BC ∨ lo_kind env pp i = env.REFLECTIVE_BC)) :=
    fun i h => h1 ⟨i, h.1, Or.comm.1 h.2⟩
  have hs : ∀ i, ¬(periodic_in pp i = false ∧
      (hi_kind env pp i = env.SOMMERFELD_BC ∨ lo_kind env pp i = env.SOMMERFELD_BC)) :=
    fun i h => h2 ⟨i, h.1, Or.comm.1 h.2⟩
  unfold boundary_result
  rw [hinit]
  rw [boundary_step_congr env pp' pp 0 (boundary_init env pp self)
    (by rw [hP, hL, hH]; exact hr 0) (by rw [hP, hL, hH]; exact hs 0)]
  rw [boundary_step_congr env pp' pp 1 (boundary_step env pp 0 (boundary_init env pp self))
    (by simp only [boundary_step_isPeriodic, boundary_step_hi, boundary_step_lo, hP, hL, hH]
        exact hr 1)
    (by simp only [boundary_step_isPeriodic, boundary_step_hi, boundary_step_lo, hP, hL, hH]
        exact hs 1)]
  rw [boundary_step_congr env pp' pp 2
    (boundary_step env pp 1 (boundary_step env pp 0 (boundary_init env pp self)))
    (by simp only [boundary_step_isPeriodic, boundary_step_hi, boundary_step_lo, hP, hL, hH]
        exact hr 2)
    (by simp only [boundary_step_isPeriodic, boundary_step_hi, boundary_step_lo, hP, hL, hH]
        exact hs 2)]

theorem read_boundary_ok_inv (env : Externals) (pp : GRParmParse) (self s : ChomboParameters)
    (h : read_boundary env pp self = Except.ok s) :
    boundary_valid env pp ∧ s = boundary_result env pp self := by
  rw [read_boundary_eq] at h
  by_cases hv : boundary_valid env pp
  · rw [if_pos hv] at h
    exact ⟨hv, (Except.ok.inj h).symm⟩
  · rw [if_neg hv] at h
    cases h

/-- The boundary members of the object that `read_params` returns are those left by the
boundary stage. -/
theorem params_result_boundary (env : Externals) (pp : GRParmParse) (self : ChomboParameters) :
    (params_result env pp self).boundary_params =
      (boundary_result env pp (read_general pp self)).boundary_params ∧
    (params_result env pp self).nonperiodic_boundaries_exist =
      (boundary_result env pp (read_general pp self)).nonperiodic_boundaries_exist ∧
    (params_result env pp self).symmetric_boundaries_exist =
      (boundary_result env pp (read_general pp self)).symmetric_boundaries_exist ∧
    (params_result env pp self).isPeriodic = periodic_in pp := by
  unfold params_result rest_result
  rw [read_center_eq]
  refine ⟨rfl, rfl, rfl, ?_⟩
  show (boundary_result env pp (read_general pp self)).isPeriodic = _
  simp


/-- One pass of the plot variable loop appends the resolved name, if there is one. -/
theorem plot_var_body_eq (env : Externals) (acc : List (Int × VariableType))
    (var_name : String) :
    plot_var_body env acc var_name = acc ++ (resolve_plot_name env var_name).toList := by
  unfold plot_var_body resolve_plot_name
  by_cases h1 : env.UserVariables_variable_name_to_enum var_name < 0
  · have h1' : ¬ 0 ≤ env.UserVariables_variable_name_to_enum var_name := by omega
    by_cases h2 : env.DiagnosticVariables_variable_name_to_enum var_name < 0
    · have h2' : ¬ 0 ≤ env.DiagnosticVariables_variable_name_to_enum var_name := by omega
      simp [h1, h2, h1', h2']
    · have h2' : 0 ≤ env.DiagnosticVariables_variable_name_to_enum var_name := by omega
      simp [h1, h2, h1', h2']
  · have h1' : 0 ≤ env.UserVariables_variable_name_to_enum var_name := by omega
    simp [h1, h1']

/-- The plot variable loop appends the resolved names in input order. -/
theorem foldl_plot_var_body (env : Externals) (names : List String)
    (acc : List (Int × VariableType)) :
    names.foldl (plot_var_body env) acc = acc ++ names.filterMap (resolve_plot_name env) := by
  induction names generalizing acc with
  | nil => simp
  | cons n ns ih =>
    rw [List.foldl_cons, ih, plot_var_body_eq, List.filterMap_cons]
    cases resolve_plot_name env n <;> simp

/-- The plot variables after the plot variable stage, when it does not abort. -/
theorem plot_vars_result_plot_vars (env : Externals) (pp : GRParmParse)
    (s : ChomboParameters) :
    (plot_vars_result env pp s).plot_vars =
      s.plot_vars ++ (plot_names pp).filterMap (resolve_plot_name env) ∧
    (plot_vars_result env pp s).num_plot_vars =
      ((plot_vars_result env pp s).plot_vars.length : Int) := by
  unfold plot_vars_result
  refine ⟨?_, rfl⟩
  show (plot_names pp).foldl (plot_var_body env) s.plot_vars = _
  rw [foldl_plot_var_body]

theorem params_result_plot_vars (env : Externals) (pp : GRParmParse)
    (self : ChomboParameters) :
    (params_result env pp self).plot_vars =
      self.plot_vars ++ (plot_names pp).filterMap (resolve_plot_name env) ∧
    (params_result env pp self).num_plot_vars =
      ((params_result env pp self).plot_vars.length : Int) := by
  unfold params_result rest_result
  rw [read_center_eq]
  constructor
  · show (plot_vars_result env pp _).plot_vars = _
    rw [(plot_vars_result_plot_vars env pp _).1]
    show (boundary_result env pp (read_general pp self)).plot_vars ++ _ = _
    rw [boundary_result_plot_vars]
    rfl
  · exact (plot_vars_result_plot_vars env pp _).2

theorem params_result_box (env : Externals) (pp : GRParmParse) (self : ChomboParameters) :
    (params_result env pp self).max_grid_size = box_max_grid_size pp ∧
    (params_result env pp self).block_factor = box_block_factor pp :=
  ⟨rfl, rfl⟩

theorem params_result_dx (env : Externals) (pp : GRParmParse) (self : ChomboParameters) :
    (params_result env pp self).dx = (fun _ => (params_result env pp self).coarsest_dx) ∧
    (params_result env pp self).origin =
      (fun _ => (params_result env pp self).coarsest_dx / 2) := by
  unfold params_result rest_result
  rw [read_center_eq]
  exact ⟨rfl, rfl⟩


/-- A supplied positive full-domain count is halved on a reflective axis and used as it
is otherwise. -/
theorem axis_counts_full (env : Externals) (pp : GRParmParse) (axis : Fin CH_SPACEDIM)
    (f : Int) (hf : 0 < f) (hsup : full_count_supplied pp axis f) :
    axis_counts env pp axis = (f, if reflective_axis env pp axis then f / 2 else f) := by
  rcases hsup with ⟨h1, h2⟩ | ⟨h1, h2, h3, h4⟩
  · subst h2
    simp [axis_counts, axis_uses_full, axis_full_in, global_N_of_full pp h1, hf]
  · subst h4
    simp [axis_counts, axis_uses_full, axis_full_in, global_N_of_none pp h1 h2, h3]

/-- On a valid axis the half-domain count is at most the full-domain count, which is at
most twice the half-domain count. -/
theorem axis_counts_le (env : Externals) (pp : GRParmParse) (d : Fin CH_SPACEDIM)
    (hv : axis_valid env pp d) :
    (axis_counts env pp d).2 ≤ (axis_counts env pp d).1 ∧
    (axis_counts env pp d).1 ≤ 2 * (axis_counts env pp d).2 := by
  unfold axis_valid at hv
  unfold axis_counts axis_uses_full axis_full_in axis_half_in
  by_cases h1 : 0 < (global_N pp).1
  · simp only [h1, if_true] at hv
    by_cases hr : reflective_axis env pp d
    · have := hv.2.2 hr
      refine ⟨?_, ?_⟩ <;> simp [h1, hr] <;> omega
    · refine ⟨?_, ?_⟩ <;> simp [h1, hr]
  · simp only [h1, if_false] at hv
    by_cases h2 : 0 < (global_N pp).2
    · refine ⟨?_, ?_⟩ <;> simp [h1, h2]
    · simp only [h2, if_false] at hv
      obtain ⟨_, _, hc⟩ := hv
      by_cases hf : pp.contains (name_full d) = true
      · simp only [hf, if_true] at hc
        obtain ⟨_, hp, he⟩ := hc
        by_cases hr : reflective_axis env pp d
        · have := he hr
          refine ⟨?_, ?_⟩ <;> simp [h1, h2, hf, hr] <;> omega
        · refine ⟨?_, ?_⟩ <;> simp [h1, h2, hf, hr]
          omega
      · simp only [hf, if_false] at hc
        obtain ⟨_, hp⟩ := hc
        refine ⟨?_, ?_⟩ <;> simp [h1, h2, hf]
        omega

/-- On a successful grid-count resolution `max_N ≤ max_N_full ≤ 2 × max_N`. -/
theorem counts_valid_max_N_le (env : Externals) (pp : GRParmParse) (self : ChomboParameters)
    (hv : counts_valid env pp) :
    max_N (counts_result env pp self).1 ≤ max_N_full (counts_result env pp self).2 ∧
    max_N_full (counts_result env pp self).2 ≤ 2 * max_N (counts_result env pp self).1 := by
  rw [max_N_counts_result]
  unfold max_N_full
  constructor
  · obtain ⟨d, hd⟩ := max_element_mem (counts_result env pp self).2.Ni
    have h1 := max_element_ge (counts_result env pp self).2.Ni_full d
    have h2 := (axis_counts_le env pp d (hv.2.2 d)).1
    rw [hd]
    rw [counts_result_Ni_full] at h1
    rw [counts_result_Ni]
    omega
  · obtain ⟨d, hd⟩ := max_element_mem (counts_result env pp self).2.Ni_full
    have h1 := max_element_ge (counts_result env pp self).2.Ni d
    have h2 := (axis_counts_le env pp d (hv.2.2 d)).2
    rw [hd]
    rw [counts_result_Ni] at h1
    rw [counts_result_Ni_full]
    omega

/-- The center loop in closed form: it only writes `center`, cell by cell. -/
theorem center_loop_eq (env : Externals) (Ni : Fin CH_SPACEDIM → Int) (s : ChomboParameters) :
    FOR1 (center_body env Ni) s = { s with center := fun d => center_cell env Ni d s } := by
  rw [FOR1_eq]
  simp only [center_body_eq]
  congr 1
  exact update3 _ (fun d => center_cell env Ni d s)

/-- Running the center loop twice is the same as running it once. -/
theorem center_loop_idem (env : Externals) (Ni : Fin CH_SPACEDIM → Int)
    (s : ChomboParameters) :
    FOR1 (center_body env Ni) (FOR1 (center_body env Ni) s) = FOR1 (center_body env Ni) s := by
  rw [center_loop_eq env Ni s, center_loop_eq]
  congr 1
  funext d
  simp only [center_cell]
  split_ifs <;> rfl


/-- The length stage in double precision aborts exactly when both `L_full` and `L` are
present. -/
theorem read_grid_L_double_eq (pp : GRParmParse) (maxN maxNfull : Int)
    (self : ChomboParameters) :
    read_grid_L_double pp maxN maxNfull self =
      if pp.contains "L_full" = true ∧ pp.contains "L" = true then
        Except.error ConfigError.AssertionFailed
      else Except.ok (grid_L_double_result pp maxN maxNfull self) := by
  unfold read_grid_L_double read_L_keys CH_assert GRParmParse.load grid_L_double_result
    grid_L_double_value
  by_cases h1 : pp.contains "L_full" = true
  · by_cases h2 : pp.contains "L" = true
    · simp [h1, h2, bind, Except.bind, pure, Except.pure]
    · by_cases h3 : 0 < pp.getReal "L_full" <;>
        simp [h1, h2, h3, bind, Except.bind, pure, Except.pure]
  · by_cases h3 : 0 < (-1 : ℚ)
    · norm_num at h3
    · simp [h1, h3, bind, Except.bind, pure, Except.pure]

/-- Evaluation of `round_double` at a quotient of coprime positive integers. -/
theorem round_double_div (a b m : Nat) (sh : Int) (ha : 0 < a) (hb : 0 < b)
    (hc : Nat.Coprime a b) (hp : double_parts a b = (m, sh)) :
    round_double ((a : ℚ) / (b : ℚ)) = (m : ℚ) * (2 : ℚ) ^ (-sh) := by
  have hq : (0 : ℚ) < (a : ℚ) / (b : ℚ) := by positivity
  have hn : ((a : ℚ) / (b : ℚ)).num = (a : ℤ) := by
    have := Rat.num_div_eq_of_coprime (a := (a : ℤ)) (b := (b : ℤ)) (by exact_mod_cast hb)
      (by simpa using hc)
    simpa using this
  have hd : ((a : ℚ) / (b : ℚ)).den = b := by
    have := Rat.den_div_eq_of_coprime (a := (a : ℤ)) (b := (b : ℤ)) (by exact_mod_cast hb)
      (by simpa using hc)
    have h2 : (((a : ℤ) : ℚ) / ((b : ℤ) : ℚ)) = (a : ℚ) / (b : ℚ) := by simp
    rw [h2] at this
    exact_mod_cast this
  unfold round_double
  rw [if_neg (ne_of_gt hq), hn, hd, Int.natAbs_ofNat, hp, if_neg (not_lt.2 (le_of_lt hq))]
  simp

/-- In double precision `1 / 49` is `5882252574524729 / 2 ^ 58`. -/
theorem round_double_one_div_49 :
    round_double ((1 : ℚ) / 49) = 5882252574524729 / 2 ^ 58 := by
  have h := round_double_div 1 49 5882252574524729 58 (by decide) (by decide) (by decide)
    (by decide)
  norm_num at h ⊢
  exact h

/-- In double precision `(1 / 49) × 49` is `(2 ^ 53 - 1) / 2 ^ 53`. -/
theorem round_double_dx_times_49 :
    round_double ((5882252574524729 / 2 ^ 58 : ℚ) * 49) = 9007199254740991 / 2 ^ 53 := by
  have h := round_double_div 288230376151711721 288230376151711744 9007199254740991 53
    (by decide) (by decide) (by decide) (by decide)
  norm_num at h ⊢
  exact h


theorem center_body_double_frame (env : Externals) (Ni : Fin CH_SPACEDIM → Int)
    (idir : Fin CH_SPACEDIM) (self : ChomboParameters) :
    (center_body_double env Ni idir self).L = self.L ∧
    (center_body_double env Ni idir self).coarsest_dx = self.coarsest_dx := by
  unfold center_body_double
  split_ifs <;> exact ⟨rfl, rfl⟩

/-- The center stage in double precision leaves `L` and `coarsest_dx` as they are. -/
theorem read_center_double_frame (env : Externals) (pp : GRParmParse)
    (Ni : Fin CH_SPACEDIM → Int) (s : ChomboParameters) :
    (read_center_double env pp Ni s).L = s.L ∧
    (read_center_double env pp Ni s).coarsest_dx = s.coarsest_dx := by
  unfold read_center_double
  rw [FOR1_eq]
  simp only [center_body_double_frame, and_self]

/-- On valid keys `read_params_double` returns an object whose `L` is
`grid_L_double_value` and whose `coarsest_dx` is the rounded quotient `L / max_N`. -/
theorem read_params_double_ok (env : Externals) (pp : GRParmParse) (self : ChomboParameters)
    (hv : params_valid env pp) :
    ∃ r, read_params_double env pp self = Except.ok r ∧
      r.L = grid_L_double_value pp (max_N (counts_result env pp self).1)
        (max_N_full (counts_result env pp self).2) self.L ∧
      r.coarsest_dx = round_double (r.L / (max_N (counts_result env pp self).1 : ℚ)) := by
  refine ⟨box_result pp (plot_vars_result env pp (misc_result pp
    (read_center_double env pp (counts_result env pp self).2.Ni
      (grid_L_double_result pp (max_N (counts_result env pp self).1)
        (max_N_full (counts_result env pp self).2) (counts_result env pp self).1)))),
    ?_, ?_, ?_⟩
  · unfold read_params_double resolve_rest_double
    simp only [resolve_counts_ok env pp self hv.1, read_grid_L_double_eq, read_misc_eq,
      read_plot_vars_eq, read_box_eq, hv.2.1, hv.2.2.1, hv.2.2.2, if_true, if_false, bind,
      Except.bind]
  · show (read_center_double env pp _ _).L = _
    rw [(read_center_double_frame _ _ _ _).1]
    show grid_L_double_value pp _ _ (counts_result env pp self).1.L = _
    rw [counts_result_L]
  · show (read_center_double env pp _ _).coarsest_dx =
      round_double ((read_center_double env pp _ _).L / _)
    rw [(read_center_double_frame _ _ _ _).1, (read_center_double_frame _ _ _ _).2]
    rfl


/-- In double precision `0.1 × 11` is `4953959590107546 / 2 ^ 52`. -/
theorem round_double_tenth_times_11 :
    round_double (double_one_tenth * 11) = 4953959590107546 / 2 ^ 52 := by
  have h := round_double_div 39631676720860367 36028797018963968 4953959590107546 52
    (by decide) (by decide) (by decide) (by decide)
  unfold double_one_tenth
  norm_num at h ⊢
  exact h

/-- In double precision `(0.1 × 11) / 11` is 0.1 again. -/
theorem round_double_tenth_back :
    round_double ((4953959590107546 / 2 ^ 52 : ℚ) / 11) = double_one_tenth := by
  have h := round_double_div 2476979795053773 24769797950537728 7205759403792794 56
    (by decide) (by decide) (by decide) (by decide)
  unfold double_one_tenth
  norm_num at h ⊢
  exact h

/-- In double precision `0.1 / 11` is `5240552293667487 / 2 ^ 59`. -/
theorem round_double_tenth_div_11 :
    round_double (double_one_tenth / 11) = 5240552293667487 / 2 ^ 59 := by
  have h := round_double_div 3602879701896397 396316767208603648 5240552293667487 59
    (by decide) (by decide) (by decide) (by decide)
  unfold double_one_tenth
  norm_num at h ⊢
  exact h

/-- In double precision `11 × (0.1 / 11)` is `7205759403792795 / 2 ^ 56`, the double after
0.1. -/
theorem round_double_11_times_dx :
    round_double (11 * (5240552293667487 / 2 ^ 59 : ℚ)) = 7205759403792795 / 2 ^ 56 := by
  have h := round_double_div 57646075230342357 576460752303423488 7205759403792795 56
    (by decide) (by decide) (by decide) (by decide)
  norm_num at h ⊢
  exact h

/-- The value `double_one_tenth` is a double: rounding leaves it as it is. -/
theorem round_double_one_tenth : round_double double_one_tenth = double_one_tenth := by
  have h := round_double_div 3602879701896397 36028797018963968 7205759403792794 56
    (by decide) (by decide) (by decide) (by decide)
  unfold double_one_tenth
  norm_num at h ⊢
  exact h


/-! ## The claims -/

/-- C1: a parameter source that contains both `N` and `N_full` makes `read_params` fail,
whatever the two values and all other parameters are; when the boundary stage before it
runs through, the failure is the assertion of line 83. -/
theorem C1_N_and_N_full_conflict (env : Externals) (pp : GRParmParse) (self : ChomboParameters)
    (hN : pp.contains "N" = true) (hNf : pp.contains "N_full" = true) :
    (∃ e, read_params env pp self = Except.error e) ∧
    (boundary_valid env pp →
      read_params env pp self = Except.error ConfigError.AssertionFailed) := by
  constructor
  · apply read_params_err
    intro hv
    exact hv.1.2.1 ⟨hNf, hN⟩
  · intro hb
    simp [read_params, resolve_counts, read_boundary_eq, hb, read_grid_N, CH_assert, hN, hNf,
      bind, Except.bind]

/-- C1, Scenario E: `N = 16` together with `N_full = 32` fails on the assertion. -/
theorem C1_witness :
    read_params sample_env pp_both_N blank = Except.error ConfigError.AssertionFailed :=
  (C1_N_and_N_full_conflict sample_env pp_both_N blank (by decide) (by decide)).2 (by decide)

/-- C3, the code at the failing input `N = 16` with a reflective low side on axis 0:
`read_params` succeeds, and the full-domain count of the reflective axis that enters
`max_N_full` is `Ni_full[0] = 16 = Ni[0]`, not `2 × Ni[0] = 32`. -/
theorem C3_half_count_not_doubled :
    reflective_axis sample_env (pp_reflective_global "N" 16) 0 ∧
    ∃ sg r, resolve_counts sample_env (pp_reflective_global "N" 16) blank = Except.ok sg ∧
      read_params sample_env (pp_reflective_global "N" 16) blank = Except.ok r ∧
      sg.2.Ni 0 = 16 ∧ sg.2.Ni_full 0 = 16 ∧ sg.2.Ni_full 0 ≠ 2 * sg.2.Ni 0 ∧
      max_N_full sg.2 = 16 :=
  ⟨by decide, _, _, resolve_counts_ok _ _ _ (by decide), read_params_ok _ _ _ (by decide),
    by decide, by decide, by decide, by decide⟩

/-- C4, the code at the failing input `N_full = -5` next to `N1 = N2 = N3 = 16`: a global
count key and per-axis keys are both present, and yet the assertion of lines 103-107
passes on every axis and `read_params` succeeds, resolving the counts from the per-axis
keys (`ivN[0] = 15`). -/
theorem C4_negative_global_value_passes :
    (pp_N_full_and_axis_keys (-5)).contains "N_full" = true ∧
    (pp_N_full_and_axis_keys (-5)).contains (name 0) = true ∧
    (∀ dir, grid_axis sample_env (pp_N_full_and_axis_keys (-5)) blank.boundary_params
      (-5) (-1) dir = Except.ok (16, 16)) ∧
    ∃ r, read_params sample_env (pp_N_full_and_axis_keys (-5)) blank = Except.ok r ∧
      r.ivN 0 = 15 := by
  refine ⟨by decide, by decide, ?_, _, read_params_ok _ _ _ (by decide), ?_⟩
  · intro dir
    have hc : axis_counts sample_env (pp_N_full_and_axis_keys (-5)) dir = (16, 16) := by
      revert dir; decide
    have h := grid_axis_ok sample_env (pp_N_full_and_axis_keys (-5)) blank.boundary_params dir
      (by revert dir; decide) (by revert dir; decide) (by revert dir; decide)
    rw [hc] at h
    exact h
  · rw [params_result_ivN]; decide

/-- When a global count key that is present holds a value that is zero or positive and
some per-axis key `N<i>` or `N<i>_full` is present as well, `read_params` fails: on these
values the assertion of lines 103-107 does what its comment says. -/
theorem global_and_axis_key_conflict (env : Externals) (pp : GRParmParse)
    (self : ChomboParameters) (i : Fin CH_SPACEDIM)
    (hglob : (pp.contains "N_full" = true ∧ 0 ≤ pp.getInt "N_full") ∨
      (pp.contains "N" = true ∧ 0 ≤ pp.getInt "N"))
    (haxis : pp.contains (name i) = true ∨ pp.contains (name_full i) = true) :
    ∃ e, read_params env pp self = Except.error e := by
  apply read_params_err
  intro hv
  have hN := hv.1.2.1
  have ha : axis_valid env pp i := hv.1.2.2 i
  unfold axis_valid at ha
  rcases hglob with ⟨h1, h2⟩ | ⟨h1, h2⟩
  · rw [global_N_of_full pp h1] at ha
    by_cases hp : 0 < pp.getInt "N_full"
    · simp only [hp, if_true] at ha
      rcases haxis with h | h
      · rw [ha.1] at h; cases h
      · rw [ha.2.1] at h; cases h
    · simp [hp] at ha
      omega
  · have h0 : pp.contains "N_full" = false := by
      by_contra h
      exact hN ⟨by simpa using h, h1⟩
    rw [global_N_of_half pp h0 h1] at ha
    by_cases hp : 0 < pp.getInt "N"
    · simp [hp] at ha
      rcases haxis with h | h
      · rw [ha.1] at h; cases h
      · rw [ha.2] at h; cases h
    · simp [hp] at ha
      omega

/-- `N_full = 32` next to `N1`, and `N_full = 0` next to `N1`, both fail. -/
theorem global_and_axis_key_conflict_example :
    (∃ e, read_params sample_env (pp_N_full_and_axis_keys 32) blank = Except.error e) ∧
    (∃ e, read_params sample_env (pp_N_full_and_axis_keys 0) blank = Except.error e) :=
  ⟨global_and_axis_key_conflict sample_env (pp_N_full_and_axis_keys 32) blank 0
      (Or.inl (by decide)) (Or.inl (by decide)),
   global_and_axis_key_conflict sample_env (pp_N_full_and_axis_keys 0) blank 0
      (Or.inl (by decide)) (Or.inl (by decide))⟩

/-- C5: when neither `N` nor `N_full` is present, `read_params` fails for every axis `i`
for which both `N<i>` and `N<i>_full` are present, or neither is present, or the single
per-axis key that is present holds a value that is zero or negative. -/
theorem C5_per_axis_count_failures (env : Externals) (pp : GRParmParse)
    (self : ChomboParameters) (i : Fin CH_SPACEDIM)
    (hNf : pp.contains "N_full" = false) (hN : pp.contains "N" = false)
    (hbad : (pp.contains (name i) = true ∧ pp.contains (name_full i) = true) ∨
      (pp.contains (name i) = false ∧ pp.contains (name_full i) = false) ∨
      (pp.contains (name i) = false ∧ pp.contains (name_full i) = true ∧
        pp.getInt (name_full i) ≤ 0) ∨
      (pp.contains (name i) = true ∧ pp.contains (name_full i) = false ∧
        pp.getInt (name i) ≤ 0)) :
    ∃ e, read_params env pp self = Except.error e := by
  apply read_params_err
  intro hv
  have ha : axis_valid env pp i := hv.1.2.2 i
  unfold axis_valid at ha
  rw [global_N_of_none pp hNf hN] at ha
  rcases hbad with ⟨h1, h2⟩ | ⟨h1, h2⟩ | ⟨h1, h2, h3⟩ | ⟨h1, h2, h3⟩
  · simp [h1, h2] at ha
  · simp [h1, h2] at ha
  · simp [h1, h2] at ha
    omega
  · simp [h1, h2] at ha
    omega

/-- C5 at concrete inputs without global key: `N1` and `N1_full` both present; no key for
axis 0; `N1_full = 0` alone; `N1 = -3` alone.  All four fail. -/
theorem C5_witness :
    (∃ e, read_params sample_env (pp_periodic ["N1", "N1_full", "N2", "N3"] 16 1) blank =
      Except.error e) ∧
    (∃ e, read_params sample_env (pp_periodic ["N2", "N3"] 16 1) blank = Except.error e) ∧
    (∃ e, read_params sample_env (pp_periodic ["N1_full", "N2_full", "N3_full"] 0 1) blank =
      Except.error e) ∧
    (∃ e, read_params sample_env (pp_periodic ["N1", "N2", "N3"] (-3) 1) blank =
      Except.error e) :=
  ⟨C5_per_axis_count_failures sample_env _ blank 0 (by decide) (by decide)
      (Or.inl (by decide)),
   C5_per_axis_count_failures sample_env _ blank 0 (by decide) (by decide)
      (Or.inr (Or.inl (by decide))),
   C5_per_axis_count_failures sample_env _ blank 0 (by decide) (by decide)
      (Or.inr (Or.inr (Or.inl (by decide)))),
   C5_per_axis_count_failures sample_env _ blank 0 (by decide) (by decide)
      (Or.inr (Or.inr (Or.inr (by decide))))⟩


/-- C7, the code at two failing inputs.  With `N = 16` and `L_full = -2` (and `L` absent)
`read_params` succeeds and never assigns `L`, which keeps its value before the call, here
0, not `L_full × max_N / max_N_full = -2`.  With every axis reflective, `N = 8` and
`L_full = 4` it resolves `L = 4`, although the maximum half-domain count is 8 and the
maximum full-domain count, twice the half-domain count on a reflective axis, is 16, so
that `L_full × max_N / max_N_full = 2`. -/
theorem C7_L_not_converted :
    ((pp_periodic ["N", "L_full"] 16 (-2)).contains "L_full" = true ∧
      (pp_periodic ["N", "L_full"] 16 (-2)).contains "L" = false ∧
      ∃ sg r, resolve_counts sample_env (pp_periodic ["N", "L_full"] 16 (-2)) blank =
          Except.ok sg ∧
        read_params sample_env (pp_periodic ["N", "L_full"] 16 (-2)) blank = Except.ok r ∧
        r.L = blank.L ∧
        r.L ≠ (pp_periodic ["N", "L_full"] 16 (-2)).getReal "L_full" * (max_N sg.1 : ℚ) /
          (max_N_full sg.2 : ℚ)) ∧
    ((pp_all_reflective "N" 8).contains "L_full" = true ∧
      (pp_all_reflective "N" 8).contains "L" = false ∧
      ∃ sg r, resolve_counts sample_env (pp_all_reflective "N" 8) blank = Except.ok sg ∧
        read_params sample_env (pp_all_reflective "N" 8) blank = Except.ok r ∧
        r.L = 4 ∧ max_element sg.2.Ni = 8 ∧
        max_element (spec_full_count sample_env (pp_all_reflective "N" 8) sg.2.Ni) = 16 ∧
        r.L ≠ (pp_all_reflective "N" 8).getReal "L_full" * (max_element sg.2.Ni : ℚ) /
          (max_element (spec_full_count sample_env (pp_all_reflective "N" 8) sg.2.Ni) : ℚ))
    := by
  have hL : (params_result sample_env (pp_periodic ["N", "L_full"] 16 (-2)) blank).L = 0 := by
    rw [params_result_L]
    have h : (pp_periodic ["N", "L_full"] 16 (-2)).contains "L_full" = true := by decide
    have hv : (pp_periodic ["N", "L_full"] 16 (-2)).getReal "L_full" = -2 := rfl
    simp [grid_L_value, h, hv]
    rfl
  have h1 : max_N (counts_result sample_env (pp_periodic ["N", "L_full"] 16 (-2)) blank).1
      = 16 := by decide
  have h2 : max_N_full
      (counts_result sample_env (pp_periodic ["N", "L_full"] 16 (-2)) blank).2 = 16 := by
    decide
  have hv : (pp_periodic ["N", "L_full"] 16 (-2)).getReal "L_full" = -2 := rfl
  have hm1 : max_N (counts_result sample_env (pp_all_reflective "N" 8) blank).1 = 8 := by
    decide
  have hM1 : max_N_full (counts_result sample_env (pp_all_reflective "N" 8) blank).2 = 8 := by
    decide
  have hc1 : (pp_all_reflective "N" 8).contains "L_full" = true := by decide
  have hf1 : (pp_all_reflective "N" 8).getReal "L_full" = 4 := rfl
  have hL1 : (params_result sample_env (pp_all_reflective "N" 8) blank).L = 4 := by
    rw [params_result_L, hm1, hM1]
    simp [grid_L_value, hc1, hf1]
  have hNi : max_element (counts_result sample_env (pp_all_reflective "N" 8) blank).2.Ni
      = 8 := by decide
  have hfull : max_element (spec_full_count sample_env (pp_all_reflective "N" 8)
      (counts_result sample_env (pp_all_reflective "N" 8) blank).2.Ni) = 16 := by decide
  refine ⟨⟨by decide, by decide, _, _, resolve_counts_ok _ _ _ (by decide),
    read_params_ok _ _ _ (by decide), hL, ?_⟩,
    ⟨hc1, by decide, _, _, resolve_counts_ok _ _ _ (by decide),
    read_params_ok _ _ _ (by decide), hL1, hNi, hfull, ?_⟩⟩
  · rw [hL, h1, h2, hv]
    norm_num
  · rw [hL1, hNi, hfull, hf1]
    norm_num

/-- What line 157 computes: when grid-count resolution succeeds and `L_full` is present with
a positive value (and `L` absent), the length stage resolves `L` to
`L_full × max_N / max_N_full` in exact arithmetic, and so does `read_params` when the
later stages run through; here `max_N` is the maximum of `Ni` and `max_N_full` the maximum
of the local array `Ni_full`. -/
theorem L_from_positive_L_full (env : Externals) (pp : GRParmParse)
    (self : ChomboParameters) (sg : ChomboParameters × GridCounts)
    (hc : resolve_counts env pp self = Except.ok sg)
    (hLf : pp.contains "L_full" = true) (hL : pp.contains "L" = false)
    (hpos : 0 < pp.getReal "L_full") :
    (∃ s3, read_grid_L pp (max_N sg.1) (max_N_full sg.2) sg.1 = Except.ok s3 ∧
      s3.L = pp.getReal "L_full" * (max_N sg.1 : ℚ) / (max_N_full sg.2 : ℚ)) ∧
    (misc_valid pp → plot_count_valid pp →
      ∃ r, read_params env pp self = Except.ok r ∧
        r.L = pp.getReal "L_full" * (max_N sg.1 : ℚ) / (max_N_full sg.2 : ℚ)) ∧
    max_N sg.1 = max_element sg.2.Ni ∧ max_N_full sg.2 = max_element sg.2.Ni_full := by
  obtain ⟨hv, rfl⟩ := resolve_counts_ok_inv env pp self _ hc
  refine ⟨?_, ?_, max_N_counts_result env pp self, rfl⟩
  · rw [read_grid_L_eq]
    simp [hL, grid_L_result, grid_L_value, hLf, hpos]
  · intro hm hpl
    have hp : params_valid env pp := ⟨hv, ⟨by simp [hL], hm, hpl⟩⟩
    refine ⟨_, read_params_ok env pp self hp, ?_⟩
    rw [params_result_L]
    simp [grid_L_value, hLf, hpos]

/-- Scenario B with `N1_full = 32`, `N2 = N3 = 16` and `L_full = 4` gives `max_N = 16`,
`max_N_full = 32` and `L = 4 × 16 / 32`. -/
theorem L_from_positive_L_full_example :
    ∃ r, read_params sample_env (pp_reflective_N1_full 32 ["L_full"] 4) blank = Except.ok r ∧
      r.L = (4 : ℚ) * ((16 : Int) : ℚ) / ((32 : Int) : ℚ) :=
  (L_from_positive_L_full sample_env (pp_reflective_N1_full 32 ["L_full"] 4) blank
    (counts_result sample_env (pp_reflective_N1_full 32 ["L_full"] 4) blank)
    (resolve_counts_ok _ _ _ (by decide)) (by decide) (by decide)
    (by show (0 : ℚ) < 4; norm_num)).2.1 (by decide) (by decide)

/-- C9: on every successful resolution with `L_full > 0` supplied, `max_N` and
`max_N_full` are non-zero and inverting the conversion, `L × max_N_full / max_N`, gives
back exactly the supplied `L_full`. -/
theorem C9_L_full_round_trip (env : Externals) (pp : GRParmParse)
    (self r : ChomboParameters) (sg : ChomboParameters × GridCounts)
    (hc : resolve_counts env pp self = Except.ok sg)
    (hr : read_params env pp self = Except.ok r)
    (hLf : pp.contains "L_full" = true) (hpos : 0 < pp.getReal "L_full") :
    max_N sg.1 ≠ 0 ∧ max_N_full sg.2 ≠ 0 ∧
    r.L * (max_N_full sg.2 : ℚ) / (max_N sg.1 : ℚ) = pp.getReal "L_full" := by
  obtain ⟨hv, rfl⟩ := resolve_counts_ok_inv env pp self _ hc
  obtain ⟨_, rfl⟩ := read_params_ok_inv env pp self _ hr
  obtain ⟨h1, h2⟩ := counts_valid_max_N_pos env pp self hv
  have h1' : ((max_N (counts_result env pp self).1 : Int) : ℚ) ≠ 0 := by
    have : max_N (counts_result env pp self).1 ≠ 0 := by omega
    exact_mod_cast this
  have h2' : ((max_N_full (counts_result env pp self).2 : Int) : ℚ) ≠ 0 := by
    have : max_N_full (counts_result env pp self).2 ≠ 0 := by omega
    exact_mod_cast this
  refine ⟨by omega, by omega, ?_⟩
  rw [params_result_L]
  simp only [grid_L_value, hLf, hpos, if_true]
  field_simp

/-- C9 at a concrete input: Scenario B with `L_full = 4` resolves, and
`L × max_N_full / max_N` is 4 again. -/
theorem C9_witness :
    ∃ sg r, resolve_counts sample_env (pp_reflective_N1_full 32 ["L_full"] 4) blank =
        Except.ok sg ∧
      read_params sample_env (pp_reflective_N1_full 32 ["L_full"] 4) blank = Except.ok r ∧
      r.L * (max_N_full sg.2 : ℚ) / (max_N sg.1 : ℚ) = 4 :=
  ⟨_, _, resolve_counts_ok _ _ _ (by decide), read_params_ok _ _ _ (by decide),
    (C9_L_full_round_trip sample_env (pp_reflective_N1_full 32 ["L_full"] 4) blank _ _
      (resolve_counts_ok _ _ _ (by decide)) (read_params_ok _ _ _ (by decide)) (by decide)
      (by show (0 : ℚ) < 4; norm_num)).2.2⟩


/-- C10: on every successful resolution without the key `center`, for every axis the
resolved center is 0 when the low side is reflective (also when the high side is
reflective too), otherwise `coarsest_dx × Ni[axis]` when the high side is reflective,
otherwise `0.5 × Ni[axis] × coarsest_dx`; the boundary kinds of the result are those of the
input. -/
theorem C10_default_center (env : Externals) (pp : GRParmParse)
    (self r : ChomboParameters) (sg : ChomboParameters × GridCounts)
    (hc : resolve_counts env pp self = Except.ok sg)
    (hr : read_params env pp self = Except.ok r)
    (hcen : pp.contains "center" = false) (axis : Fin CH_SPACEDIM) :
    r.boundary_params.lo_boundary axis = lo_kind env pp axis ∧
    r.boundary_params.hi_boundary axis = hi_kind env pp axis ∧
    r.center axis =
      if r.boundary_params.lo_boundary axis = env.REFLECTIVE_BC then 0
      else if r.boundary_params.hi_boundary axis = env.REFLECTIVE_BC then
        r.coarsest_dx * (sg.2.Ni axis : ℚ)
      else (1 / 2 : ℚ) * (sg.2.Ni axis : ℚ) * r.coarsest_dx := by
  obtain ⟨_, rfl⟩ := resolve_counts_ok_inv env pp self _ hc
  obtain ⟨_, rfl⟩ := read_params_ok_inv env pp self _ hr
  refine ⟨by simp, by simp, ?_⟩
  rw [params_result_center]
  simp [GRParmParse.load_or, hcen]

/-- C10 at concrete inputs: in Scenario B (both sides of axis 0 reflective) the center of
axis 0 is 0 and that of the periodic axis 1 is `0.5 × Ni[1] × coarsest_dx`; with only the
high side of axis 0 reflective the center of axis 0 is `coarsest_dx × Ni[0]`. -/
theorem C10_witness :
    (∃ sg r, resolve_counts sample_env (pp_reflective_N1_full 32 [] 1) blank = Except.ok sg ∧
      read_params sample_env (pp_reflective_N1_full 32 [] 1) blank = Except.ok r ∧
      r.center 0 = 0 ∧ r.center 1 = (1 / 2 : ℚ) * (sg.2.Ni 1 : ℚ) * r.coarsest_dx) ∧
    (∃ sg r, resolve_counts sample_env pp_reflective_hi blank = Except.ok sg ∧
      read_params sample_env pp_reflective_hi blank = Except.ok r ∧
      r.center 0 = r.coarsest_dx * (sg.2.Ni 0 : ℚ)) := by
  have hB0 := C10_default_center sample_env (pp_reflective_N1_full 32 [] 1) blank _ _
    (resolve_counts_ok _ _ _ (by decide)) (read_params_ok _ _ _ (by decide)) (by decide) 0
  have hB1 := C10_default_center sample_env (pp_reflective_N1_full 32 [] 1) blank _ _
    (resolve_counts_ok _ _ _ (by decide)) (read_params_ok _ _ _ (by decide)) (by decide) 1
  have hH0 := C10_default_center sample_env pp_reflective_hi blank _ _
    (resolve_counts_ok _ _ _ (by decide)) (read_params_ok _ _ _ (by decide)) (by decide) 0
  refine ⟨⟨_, _, resolve_counts_ok _ _ _ (by decide), read_params_ok _ _ _ (by decide),
    ?_, ?_⟩, ⟨_, _, resolve_counts_ok _ _ _ (by decide), read_params_ok _ _ _ (by decide), ?_⟩⟩
  · rw [hB0.2.2, if_pos (by rw [hB0.1]; decide)]
  · rw [hB1.2.2, if_neg (by rw [hB1.1]; decide), if_neg (by rw [hB1.2.1]; decide)]
  · rw [hH0.2.2, if_neg (by rw [hH0.1]; decide), if_pos (by rw [hH0.2.1]; decide)]


/-- C14: after every successful resolution of the boundary parameters,
`boundary_params.is_periodic` equals the input `isPeriodic` on every axis,
`nonperiodic_boundaries_exist` is true exactly when some axis has `isPeriodic` false, and
`symmetric_boundaries_exist` is true exactly when some axis with `isPeriodic` false has a
reflective side; the same holds for the object that a successful `read_params` returns. -/
theorem C14_boundary_flags (env : Externals) (pp : GRParmParse) (self s : ChomboParameters)
    (hb : read_boundary env pp self = Except.ok s) :
    ((∀ axis, s.boundary_params.is_periodic axis = periodic_in pp axis) ∧
      (s.nonperiodic_boundaries_exist = true ↔ ∃ axis, periodic_in pp axis = false) ∧
      (s.symmetric_boundaries_exist = true ↔
        ∃ axis, periodic_in pp axis = false ∧ reflective_axis env pp axis)) ∧
    (∀ self0 r, read_params env pp self0 = Except.ok r →
      (∀ axis, r.boundary_params.is_periodic axis = periodic_in pp axis) ∧
      (r.nonperiodic_boundaries_exist = true ↔ ∃ axis, periodic_in pp axis = false) ∧
      (r.symmetric_boundaries_exist = true ↔
        ∃ axis, periodic_in pp axis = false ∧ reflective_axis env pp axis)) := by
  obtain ⟨_, rfl⟩ := read_boundary_ok_inv env pp self s hb
  refine ⟨⟨fun axis => by rw [boundary_result_is_periodic],
    boundary_result_nonperiodic env pp self, boundary_result_symmetric env pp self⟩, ?_⟩
  intro self0 r hr
  obtain ⟨_, rfl⟩ := read_params_ok_inv env pp self0 r hr
  obtain ⟨h1, h2, h3, _⟩ := params_result_boundary env pp self0
  rw [h1, h2, h3]
  exact ⟨fun axis => by rw [boundary_result_is_periodic],
    boundary_result_nonperiodic env pp _, boundary_result_symmetric env pp _⟩

/-- C14 at a concrete input: in Scenario B, where only axis 0 is non-periodic and it is
reflective, `is_periodic = (false, true, true)` and both flags are true. -/
theorem C14_witness :
    ∃ r, read_params sample_env (pp_reflective_N1_full 32 [] 1) blank = Except.ok r ∧
      r.boundary_params.is_periodic 0 = false ∧ r.boundary_params.is_periodic 1 = true ∧
      r.boundary_params.is_periodic 2 = true ∧ r.nonperiodic_boundaries_exist = true ∧
      r.symmetric_boundaries_exist = true := by
  have h := (C14_boundary_flags sample_env (pp_reflective_N1_full 32 [] 1)
    (read_general (pp_reflective_N1_full 32 [] 1) blank) _
    (by rw [read_boundary_eq, if_pos (by decide)])).2 blank _
    (read_params_ok _ _ _ (by decide))
  refine ⟨_, read_params_ok _ _ _ (by decide), ?_, ?_, ?_, ?_, ?_⟩
  · rw [h.1 0]; decide
  · rw [h.1 1]; decide
  · rw [h.1 2]; decide
  · exact h.2.1.2 (by decide)
  · exact h.2.2.2 (by decide)


/-- C15: the boundary stage (lines 31-69) fails exactly when some non-periodic axis has a
reflective side while `vars_parity` is absent, or some non-periodic axis has a Sommerfeld
side while `vars_asymptotic_values` is absent.  When neither array is required the stage
succeeds, leaves every parity `EVEN` and every asymptotic value 0, and its result is the
same for every parameter source with the same `isPeriodic`, `lo_boundary` and
`hi_boundary`, so it does not depend on the two array keys. -/
theorem C15_boundary_failure (env : Externals) (pp : GRParmParse) (self : ChomboParameters) :
    ((∃ e, read_boundary env pp self = Except.error e) ↔
      ((∃ i, periodic_in pp i = false ∧ reflective_axis env pp i) ∧
          pp.contains "vars_parity" = false) ∨
      ((∃ i, periodic_in pp i = false ∧ sommerfeld_axis env pp i) ∧
          pp.contains "vars_asymptotic_values" = false)) ∧
    ((¬ ∃ i, periodic_in pp i = false ∧ reflective_axis env pp i) →
      (¬ ∃ i, periodic_in pp i = false ∧ sommerfeld_axis env pp i) →
      (∃ s, read_boundary env pp self = Except.ok s ∧
        s.boundary_params.vars_parity = List.replicate env.NUM_VARS env.EVEN ∧
        s.boundary_params.vars_asymptotic_values = List.replicate env.NUM_VARS 0) ∧
      (∀ pp' : GRParmParse, periodic_in pp' = periodic_in pp →
        lo_kind env pp' = lo_kind env pp → hi_kind env pp' = hi_kind env pp →
        read_boundary env pp' self = read_boundary env pp self)) := by
  constructor
  · rw [← boundary_valid_iff_arrays, read_boundary_eq]
    by_cases hv : boundary_valid env pp
    · simp [hv]
    · simp [hv]
  · intro h1 h2
    have hv : boundary_valid env pp := by
      by_contra hv
      rcases (boundary_valid_iff_arrays env pp).1 hv with h | h
      · exact h1 h.1
      · exact h2 h.1
    refine ⟨⟨boundary_result env pp self, by rw [read_boundary_eq, if_pos hv], ?_, ?_⟩, ?_⟩
    · rw [boundary_result_vars_parity, if_neg h1]
    · rw [boundary_result_vars_asymptotic_values, if_neg h2]
    · intro pp' hp hlo hhi
      have h1' : ¬ ∃ i, periodic_in pp' i = false ∧ reflective_axis env pp' i := by
        unfold reflective_axis at h1 ⊢
        rw [hp, hlo, hhi]
        exact h1
      have h2' : ¬ ∃ i, periodic_in pp' i = false ∧ sommerfeld_axis env pp' i := by
        unfold sommerfeld_axis at h2 ⊢
        rw [hp, hlo, hhi]
        exact h2
      have hv' : boundary_valid env pp' := by
        by_contra hv'
        rcases (boundary_valid_iff_arrays env pp').1 hv' with h | h
        · exact h1' h.1
        · exact h2' h.1
      rw [read_boundary_eq, read_boundary_eq, if_pos hv, if_pos hv',
        boundary_result_congr env pp pp' self hp hlo hhi h1 h2]

/-- C15 at concrete inputs: a non-periodic reflective axis without `vars_parity` fails;
with all axes periodic the stage succeeds with the default arrays. -/
theorem C15_witness :
    (∃ e, read_boundary sample_env pp_reflective_no_parity blank = Except.error e) ∧
    (∃ s, read_boundary sample_env (pp_periodic ["N"] 16 1) blank = Except.ok s ∧
      s.boundary_params.vars_parity = [6, 6] ∧
      s.boundary_params.vars_asymptotic_values = [0, 0]) :=
  ⟨(C15_boundary_failure sample_env pp_reflective_no_parity blank).1.2
      (Or.inl (by decide)),
   ((C15_boundary_failure sample_env (pp_periodic ["N"] 16 1) blank).2
      (by decide) (by decide)).1⟩


/-- C12: for every list `names` of plot variable names that the parameter source supplies
(with a count `num_plot_vars` that is not negative) and every pair of lookup tables,
starting from an empty `plot_vars` the plot variable stage succeeds and leaves exactly the
names that resolve, in input order, each as (evolution id, evolution) when the evolution
lookup is non-negative, else (diagnostic id, diagnostic) when the diagnostic lookup is
non-negative, else dropped; `num_plot_vars` is the length of `plot_vars`, at most the
number of names.  The same holds for the object that a successful `read_params` returns. -/
theorem C12_plot_vars (env : Externals) (pp : GRParmParse) (s : ChomboParameters)
    (names : List String) (hempty : s.plot_vars = []) (hcount : plot_count_valid pp)
    (hnames : plot_names pp = names) :
    (∃ s1, read_plot_vars env pp s = Except.ok s1 ∧
      s1.plot_vars = names.filterMap (resolve_plot_name env) ∧
      s1.num_plot_vars = (s1.plot_vars.length : Int) ∧
      s1.plot_vars.length ≤ names.length) ∧
    (∀ r, read_params env pp s = Except.ok r →
      r.plot_vars = names.filterMap (resolve_plot_name env) ∧
      r.num_plot_vars = (r.plot_vars.length : Int) ∧
      r.plot_vars.length ≤ names.length) := by
  subst hnames
  constructor
  · obtain ⟨h1, h2⟩ := plot_vars_result_plot_vars env pp s
    rw [hempty, List.nil_append] at h1
    refine ⟨plot_vars_result env pp s, by rw [read_plot_vars_eq, if_pos hcount], h1, h2, ?_⟩
    rw [h1]
    exact List.length_filterMap_le _ _
  · intro r hr
    obtain ⟨_, rfl⟩ := read_params_ok_inv env pp s r hr
    obtain ⟨h1, h2⟩ := params_result_plot_vars env pp s
    rw [hempty, List.nil_append] at h1
    refine ⟨h1, h2, ?_⟩
    rw [h1]
    exact List.length_filterMap_le _ _

/-- C12, Scenario C: the names `rho`, `unknown_var` with `rho` the diagnostic variable 0
give a selection of length 1 that holds `(0, diagnostic)`, and no failure. -/
theorem C12_witness :
    ∃ r, read_params sample_env pp_plot_vars blank = Except.ok r ∧
      r.plot_vars = [(0, VariableType.diagnostic)] ∧ r.num_plot_vars = 1 := by
  have h := (C12_plot_vars sample_env pp_plot_vars blank ["rho", "unknown_var"] rfl
    (by decide) (by decide)).2 _ (read_params_ok _ _ _ (by decide))
  refine ⟨_, read_params_ok _ _ _ (by decide), ?_, ?_⟩
  · rw [h.1]; decide
  · rw [h.2.1, h.1]; decide

/-- C13: the box stage never fails; the maximum box size is the value of `max_grid_size`
when that key is present, otherwise that of `max_box_size` when present, otherwise 64; the
block factor is the value of `block_factor` when present, otherwise that of `min_box_size`
when present, otherwise 8.  Each depends on its own two keys only, and the object that a
successful `read_params` returns holds the same two values. -/
theorem C13_box_sizes (pp : GRParmParse) (self : ChomboParameters) :
    (∃ s, read_box pp self = Except.ok s ∧
      s.max_grid_size =
        (if pp.contains "max_grid_size" = true then pp.getInt "max_grid_size"
         else if pp.contains "max_box_size" = true then pp.getInt "max_box_size" else 64) ∧
      s.block_factor =
        (if pp.contains "block_factor" = true then pp.getInt "block_factor"
         else if pp.contains "min_box_size" = true then pp.getInt "min_box_size" else 8)) ∧
    (∀ env self0 r, read_params env pp self0 = Except.ok r →
      r.max_grid_size =
        (if pp.contains "max_grid_size" = true then pp.getInt "max_grid_size"
         else if pp.contains "max_box_size" = true then pp.getInt "max_box_size" else 64) ∧
      r.block_factor =
        (if pp.contains "block_factor" = true then pp.getInt "block_factor"
         else if pp.contains "min_box_size" = true then pp.getInt "min_box_size" else 8)) := by
  constructor
  · exact ⟨_, read_box_eq pp self, rfl, rfl⟩
  · intro env self0 r hr
    obtain ⟨_, rfl⟩ := read_params_ok_inv env pp self0 r hr
    exact ⟨rfl, rfl⟩

/-- C13, Scenario D: with none of the four keys present the maximum box size is 64 and
the block factor is 8. -/
theorem C13_witness :
    ∃ r, read_params sample_env (pp_periodic ["N"] 16 1) blank = Except.ok r ∧
      r.max_grid_size = 64 ∧ r.block_factor = 8 := by
  have h := (C13_box_sizes (pp_periodic ["N"] 16 1) blank).2 sample_env blank _
    (read_params_ok _ _ _ (by decide))
  refine ⟨_, read_params_ok _ _ _ (by decide), ?_, ?_⟩
  · rw [h.1]; decide
  · rw [h.2]; decide

/-- C16, counterexample in double precision: with `N = 49` and the default `L = 1`,
`read_params` succeeds with `max_N = 49`; line 159 computes
`coarsest_dx = 5882252574524729 / 2 ^ 58`, the double nearest to `1/49`, and
`coarsest_dx × max_N` is not `L`, neither as the exact product nor as the double product
`(2 ^ 53 - 1) / 2 ^ 53 = 0.9999999999999999`. -/
theorem C16_counterexample :
    ∃ sg r, resolve_counts sample_env (pp_periodic ["N"] 49 1) blank = Except.ok sg ∧
      read_params_double sample_env (pp_periodic ["N"] 49 1) blank = Except.ok r ∧
      max_N sg.1 = 49 ∧ r.L = 1 ∧ r.coarsest_dx = 5882252574524729 / 2 ^ 58 ∧
      r.coarsest_dx * (max_N sg.1 : ℚ) ≠ r.L ∧
      round_double (r.coarsest_dx * (max_N sg.1 : ℚ)) = 9007199254740991 / 2 ^ 53 ∧
      round_double (r.coarsest_dx * (max_N sg.1 : ℚ)) ≠ r.L := by
  have hv : params_valid sample_env (pp_periodic ["N"] 49 1) := by decide
  have hmax : max_N (counts_result sample_env (pp_periodic ["N"] 49 1) blank).1 = 49 := by
    decide
  have h1 : (pp_periodic ["N"] 49 1).contains "L_full" = false := by decide
  have h2 : (pp_periodic ["N"] 49 1).contains "L" = false := by decide
  obtain ⟨r, hr, hL, hdx⟩ := read_params_double_ok sample_env (pp_periodic ["N"] 49 1) blank hv
  have hL1 : r.L = 1 := by
    rw [hL]
    simp [grid_L_double_value, h1, h2, GRParmParse.load_or]
  have hdx1 : r.coarsest_dx = 5882252574524729 / 2 ^ 58 := by
    rw [hdx, hL1, hmax]
    have := round_double_one_div_49
    norm_num at this ⊢
    exact this
  have hprod : round_double ((5882252574524729 / 2 ^ 58 : ℚ) * ((49 : Int) : ℚ)) =
      9007199254740991 / 2 ^ 53 := by
    have := round_double_dx_times_49
    norm_num at this ⊢
    exact this
  refine ⟨_, r, resolve_counts_ok _ _ _ hv.1, hr, hmax, hL1, hdx1, ?_, ?_, ?_⟩
  · rw [hdx1, hmax, hL1]
    norm_num
  · rw [hdx1, hmax]
    exact hprod
  · rw [hdx1, hmax, hL1, hprod]
    norm_num

/-- C16, amended: on every successful `read_params`, for every axis the half-domain count
`Ni` is at least 1, `ivN = Ni - 1` is at least 0 and the full-domain count `Ni_full` is at
least 1; hence `max_N`, the largest `Ni`, and `max_N_full` are at least 1, the two divisors
are not zero, and in exact rational arithmetic `coarsest_dx × max_N = L`. -/
theorem C16_counts_positive (env : Externals) (pp : GRParmParse)
    (self r : ChomboParameters) (sg : ChomboParameters × GridCounts)
    (hc : resolve_counts env pp self = Except.ok sg)
    (hr : read_params env pp self = Except.ok r) :
    (∀ axis, 1 ≤ sg.2.Ni axis ∧ r.ivN axis = sg.2.Ni axis - 1 ∧ 0 ≤ r.ivN axis ∧
      1 ≤ sg.2.Ni_full axis) ∧
    max_N sg.1 = max_element sg.2.Ni ∧ 1 ≤ max_N sg.1 ∧ 1 ≤ max_N_full sg.2 ∧
    (max_N sg.1 : ℚ) ≠ 0 ∧ (max_N_full sg.2 : ℚ) ≠ 0 ∧
    r.coarsest_dx * (max_N sg.1 : ℚ) = r.L := by
  obtain ⟨hv, rfl⟩ := resolve_counts_ok_inv env pp self _ hc
  obtain ⟨_, rfl⟩ := read_params_ok_inv env pp self _ hr
  obtain ⟨h1, h2⟩ := counts_valid_max_N_pos env pp self hv
  have h1' : ((max_N (counts_result env pp self).1 : Int) : ℚ) ≠ 0 := by
    have : max_N (counts_result env pp self).1 ≠ 0 := by omega
    exact_mod_cast this
  have h2' : ((max_N_full (counts_result env pp self).2 : Int) : ℚ) ≠ 0 := by
    have : max_N_full (counts_result env pp self).2 ≠ 0 := by omega
    exact_mod_cast this
  refine ⟨?_, max_N_counts_result env pp self, h1, h2, h1', h2', ?_⟩
  · intro axis
    obtain ⟨ha, hb⟩ := axis_counts_pos env pp axis (hv.2.2 axis)
    simp only [counts_result_Ni, counts_result_Ni_full, params_result_ivN]
    refine ⟨ha, trivial, by omega, hb⟩
  · rw [params_result_coarsest_dx]
    field_simp

/-- C16, amended, at a concrete input: Scenario B resolves with `max_N = 16`, `max_N_full = 32` and
`coarsest_dx × max_N = L`. -/
theorem C16_witness :
    ∃ sg r, resolve_counts sample_env (pp_reflective_N1_full 32 [] 1) blank = Except.ok sg ∧
      read_params sample_env (pp_reflective_N1_full 32 [] 1) blank = Except.ok r ∧
      1 ≤ max_N sg.1 ∧ 1 ≤ max_N_full sg.2 ∧ r.coarsest_dx * (max_N sg.1 : ℚ) = r.L := by
  have h := C16_counts_positive sample_env (pp_reflective_N1_full 32 [] 1) blank _ _
    (resolve_counts_ok _ _ _ (by decide)) (read_params_ok _ _ _ (by decide))
  exact ⟨_, _, resolve_counts_ok _ _ _ (by decide), read_params_ok _ _ _ (by decide),
    h.2.2.1, h.2.2.2.1, h.2.2.2.2.2.2⟩


/-- C17, counterexample: with every axis periodic, `lo_boundary` naming the reflective kind
on axis 0 and `N_full = 32`, `read_params` succeeds with `symmetric_boundaries_exist`
false, and yet axis 0 is treated as reflective: the full count 32 is halved to
`Ni[0] = 16`, and `center[0]` is snapped to 0 although its default
`0.5 × Ni[0] × coarsest_dx` is not 0. -/
theorem C17_counterexample :
    ∃ sg r, resolve_counts sample_env pp_periodic_reflective_kind blank = Except.ok sg ∧
      read_params sample_env pp_periodic_reflective_kind blank = Except.ok r ∧
      r.symmetric_boundaries_exist = false ∧
      full_count_supplied pp_periodic_reflective_kind 0 32 ∧ sg.2.Ni 0 = 16 ∧
      r.center 0 = 0 ∧ (1 / 2 : ℚ) * (sg.2.Ni 0 : ℚ) * r.coarsest_dx ≠ 0 := by
  have hpv : params_valid sample_env pp_periodic_reflective_kind := by decide
  have hmax : max_N (counts_result sample_env pp_periodic_reflective_kind blank).1 = 32 := by
    decide
  have hL : (params_result sample_env pp_periodic_reflective_kind blank).L = 1 := by
    rw [params_result_L]
    have h1 : pp_periodic_reflective_kind.contains "L_full" = false := by decide
    have h2 : pp_periodic_reflective_kind.contains "L" = false := by decide
    simp [grid_L_value, h1, h2, GRParmParse.load_or]
  have hdx : (params_result sample_env pp_periodic_reflective_kind blank).coarsest_dx =
      1 / 32 := by
    rw [params_result_coarsest_dx, hL, hmax]
    norm_num
  have hNi : (counts_result sample_env pp_periodic_reflective_kind blank).2.Ni 0 = 16 := by
    decide
  refine ⟨_, _, resolve_counts_ok _ _ _ hpv.1, read_params_ok _ _ _ hpv, ?_, by decide, hNi,
    ?_, ?_⟩
  · rw [(params_result_boundary _ _ _).2.2.1]
    have := (boundary_result_symmetric sample_env pp_periodic_reflective_kind
      (read_general pp_periodic_reflective_kind blank)).not
    rw [Bool.not_eq_true] at this
    exact this.2 (by decide)
  · rw [params_result_center, if_pos (by decide)]
  · rw [hNi, hdx]
    norm_num

/-- C17, amended: after every successful `read_params` in which
`symmetric_boundaries_exist` is false, no non-periodic axis is treated as reflective: an
axis with `isPeriodic` false has no reflective side, a positive full-domain count supplied
for it is used unhalved as its half-domain count, and its component of `center` is the
supplied or default center, not replaced by the snapping rule. -/
theorem C17_no_symmetry_on_nonperiodic_axes (env : Externals) (pp : GRParmParse)
    (self r : ChomboParameters) (sg : ChomboParameters × GridCounts)
    (hc : resolve_counts env pp self = Except.ok sg)
    (hr : read_params env pp self = Except.ok r)
    (hsym : r.symmetric_boundaries_exist = false)
    (axis : Fin CH_SPACEDIM) (hnp : periodic_in pp axis = false) :
    ¬ reflective_axis env pp axis ∧
    (∀ f, 0 < f → full_count_supplied pp axis f → sg.2.Ni axis = f) ∧
    r.center axis =
      pp.load_or GRParmParse.getRealDim "center"
        (fun i => (1 / 2 : ℚ) * (sg.2.Ni i : ℚ) * r.coarsest_dx) axis := by
  obtain ⟨_, rfl⟩ := resolve_counts_ok_inv env pp self _ hc
  obtain ⟨_, rfl⟩ := read_params_ok_inv env pp self _ hr
  rw [(params_result_boundary env pp self).2.2.1] at hsym
  have hnr : ¬ reflective_axis env pp axis := by
    intro h
    have := (boundary_result_symmetric env pp (read_general pp self)).2 ⟨axis, hnp, h⟩
    rw [hsym] at this
    cases this
  refine ⟨hnr, ?_, ?_⟩
  · intro f hf hsup
    rw [counts_result_Ni, axis_counts_full env pp axis f hf hsup, if_neg hnr]
  · have hlo : ¬ lo_kind env pp axis = env.REFLECTIVE_BC := fun h => hnr (Or.inl h)
    have hhi : ¬ hi_kind env pp axis = env.REFLECTIVE_BC := fun h => hnr (Or.inr h)
    rw [params_result_center, if_neg hlo, if_neg hhi]

/-- C17, amended, at a concrete input: axis 0 non-periodic with static sides and
`N_full = 32` resolves with `symmetric_boundaries_exist` false and `Ni[0] = 32`. -/
theorem C17_witness :
    ∃ sg r, resolve_counts sample_env pp_static_nonperiodic blank = Except.ok sg ∧
      read_params sample_env pp_static_nonperiodic blank = Except.ok r ∧
      r.symmetric_boundaries_exist = false ∧ sg.2.Ni 0 = 32 := by
  have hpv : params_valid sample_env pp_static_nonperiodic := by decide
  have hsym : (params_result sample_env pp_static_nonperiodic blank).symmetric_boundaries_exist
      = false := by
    rw [(params_result_boundary _ _ _).2.2.1]
    have := (boundary_result_symmetric sample_env pp_static_nonperiodic
      (read_general pp_static_nonperiodic blank)).not
    rw [Bool.not_eq_true] at this
    exact this.2 (by decide)
  exact ⟨_, _, resolve_counts_ok _ _ _ hpv.1, read_params_ok _ _ _ hpv, hsym,
    (C17_no_symmetry_on_nonperiodic_axes sample_env pp_static_nonperiodic blank _ _
      (resolve_counts_ok _ _ _ hpv.1) (read_params_ok _ _ _ hpv) hsym 0 (by decide)).2.1 32
      (by decide) (by decide)⟩


/-- C18, counterexample in double precision: with `N = 11` on periodic axes and
`L_full = 0.1` (the double `3602879701896397 / 2 ^ 55`), `read_params` succeeds with
`max_N = max_N_full = 11`; line 157 computes `L = 0.1` and line 159
`coarsest_dx = 5240552293667487 / 2 ^ 59`, and on axis 0, of maximal count,
`Ni × coarsest_dx` is larger than `L`, both as the exact product and as the double product
`7205759403792795 / 2 ^ 56 = 0.10000000000000002`. -/
theorem C18_counterexample :
    ∃ sg r,
      resolve_counts sample_env (pp_periodic ["N", "L_full"] 11 double_one_tenth) blank =
        Except.ok sg ∧
      read_params_double sample_env (pp_periodic ["N", "L_full"] 11 double_one_tenth) blank =
        Except.ok r ∧
      (pp_periodic ["N", "L_full"] 11 double_one_tenth).contains "L_full" = true ∧
      0 < (pp_periodic ["N", "L_full"] 11 double_one_tenth).getReal "L_full" ∧
      round_double ((pp_periodic ["N", "L_full"] 11 double_one_tenth).getReal "L_full") =
        (pp_periodic ["N", "L_full"] 11 double_one_tenth).getReal "L_full" ∧
      sg.2.Ni 0 = 11 ∧ max_N sg.1 = 11 ∧
      r.L = double_one_tenth ∧ r.coarsest_dx = 5240552293667487 / 2 ^ 59 ∧
      r.L < (sg.2.Ni 0 : ℚ) * r.coarsest_dx ∧
      round_double ((sg.2.Ni 0 : ℚ) * r.coarsest_dx) = 7205759403792795 / 2 ^ 56 ∧
      r.L < round_double ((sg.2.Ni 0 : ℚ) * r.coarsest_dx) := by
  have hv : params_valid sample_env (pp_periodic ["N", "L_full"] 11 double_one_tenth) := by
    decide
  have hmax : max_N (counts_result sample_env
      (pp_periodic ["N", "L_full"] 11 double_one_tenth) blank).1 = 11 := by
    decide
  have hmaxf : max_N_full (counts_result sample_env
      (pp_periodic ["N", "L_full"] 11 double_one_tenth) blank).2 = 11 := by
    decide
  have hNi : (counts_result sample_env
      (pp_periodic ["N", "L_full"] 11 double_one_tenth) blank).2.Ni 0 = 11 := by
    decide
  have h1 : (pp_periodic ["N", "L_full"] 11 double_one_tenth).contains "L_full" = true := by
    decide
  have h2 : (pp_periodic ["N", "L_full"] 11 double_one_tenth).getReal "L_full" =
      double_one_tenth := rfl
  have hpos : (0 : ℚ) < double_one_tenth := by
    unfold double_one_tenth
    norm_num
  obtain ⟨r, hr, hL, hdx⟩ := read_params_double_ok sample_env
    (pp_periodic ["N", "L_full"] 11 double_one_tenth) blank hv
  have hL1 : r.L = double_one_tenth := by
    rw [hL, hmax, hmaxf]
    unfold grid_L_double_value
    rw [if_pos h1, h2, if_pos hpos]
    have e1 : round_double (double_one_tenth * ((11 : Int) : ℚ)) =
        4953959590107546 / 2 ^ 52 := by
      have := round_double_tenth_times_11
      norm_num at this ⊢
      exact this
    rw [e1]
    have e2 := round_double_tenth_back
    norm_num at e2 ⊢
    exact e2
  have hdx1 : r.coarsest_dx = 5240552293667487 / 2 ^ 59 := by
    rw [hdx, hL1, hmax]
    have := round_double_tenth_div_11
    norm_num at this ⊢
    exact this
  have hprod : round_double ((((11 : Int) : ℚ)) * (5240552293667487 / 2 ^ 59 : ℚ)) =
      7205759403792795 / 2 ^ 56 := by
    have := round_double_11_times_dx
    norm_num at this ⊢
    exact this
  refine ⟨_, r, resolve_counts_ok _ _ _ hv.1, hr, h1, ?_, ?_, hNi, hmax, hL1, hdx1,
    ?_, ?_, ?_⟩
  · rw [h2]
    exact hpos
  · rw [h2]
    exact round_double_one_tenth
  · rw [hNi, hdx1, hL1]
    unfold double_one_tenth
    norm_num
  · rw [hNi, hdx1]
    exact hprod
  · rw [hNi, hdx1, hL1, hprod]
    unfold double_one_tenth
    norm_num

/-- C18, amended: on every successful resolution with `L_full > 0` supplied,
`max_N ≤ max_N_full ≤ 2 × max_N`, and in exact rational arithmetic
`L_full / 2 ≤ L ≤ L_full` and for every axis `Ni[axis] × coarsest_dx ≤ L`, with equality on
every axis of maximal half-domain count; such an axis exists. -/
theorem C18_length_bounds (env : Externals) (pp : GRParmParse)
    (self r : ChomboParameters) (sg : ChomboParameters × GridCounts)
    (hc : resolve_counts env pp self = Except.ok sg)
    (hr : read_params env pp self = Except.ok r)
    (hLf : pp.contains "L_full" = true) (hpos : 0 < pp.getReal "L_full") :
    max_N sg.1 ≤ max_N_full sg.2 ∧ max_N_full sg.2 ≤ 2 * max_N sg.1 ∧
    pp.getReal "L_full" / 2 ≤ r.L ∧ r.L ≤ pp.getReal "L_full" ∧
    (∀ axis, (sg.2.Ni axis : ℚ) * r.coarsest_dx ≤ r.L) ∧
    (∀ axis, sg.2.Ni axis = max_N sg.1 → (sg.2.Ni axis : ℚ) * r.coarsest_dx = r.L) ∧
    (∃ axis, sg.2.Ni axis = max_N sg.1) := by
  obtain ⟨hv, rfl⟩ := resolve_counts_ok_inv env pp self _ hc
  obtain ⟨_, rfl⟩ := read_params_ok_inv env pp self _ hr
  obtain ⟨h1, h2⟩ := counts_valid_max_N_pos env pp self hv
  obtain ⟨h3, h4⟩ := counts_valid_max_N_le env pp self hv
  have hmN := max_N_counts_result env pp self
  have hdx := params_result_coarsest_dx env pp self
  have hL : (params_result env pp self).L =
      pp.getReal "L_full" * (max_N (counts_result env pp self).1 : ℚ) /
        (max_N_full (counts_result env pp self).2 : ℚ) := by
    rw [params_result_L]
    simp [grid_L_value, hLf, hpos]
  generalize max_N (counts_result env pp self).1 = m at *
  generalize max_N_full (counts_result env pp self).2 = M at *
  generalize (params_result env pp self).L = L at *
  generalize (params_result env pp self).coarsest_dx = dx at *
  have hm : (1 : ℚ) ≤ (m : ℚ) := by exact_mod_cast h1
  have hM : (1 : ℚ) ≤ (M : ℚ) := by exact_mod_cast h2
  have hmM : (m : ℚ) ≤ (M : ℚ) := by exact_mod_cast h3
  have hMm : (M : ℚ) ≤ 2 * (m : ℚ) := by exact_mod_cast h4
  have hm0 : (0 : ℚ) < (m : ℚ) := by linarith
  have hM0 : (0 : ℚ) < (M : ℚ) := by linarith
  have hLlo : pp.getReal "L_full" / 2 ≤ L := by
    rw [hL, div_le_div_iff₀ (by norm_num) hM0]
    nlinarith
  have hLhi : L ≤ pp.getReal "L_full" := by
    rw [hL, div_le_iff₀ hM0]
    nlinarith
  have hL0 : 0 ≤ L := by linarith
  refine ⟨h3, h4, hLlo, hLhi, ?_, ?_, ?_⟩
  · intro axis
    have ha : (counts_result env pp self).2.Ni axis ≤ m := by
      rw [hmN]
      exact max_element_ge _ axis
    have ha' : ((counts_result env pp self).2.Ni axis : ℚ) ≤ (m : ℚ) := by exact_mod_cast ha
    rw [hdx, ← mul_div_assoc, div_le_iff₀ hm0]
    nlinarith
  · intro axis ha
    rw [ha, hdx]
    field_simp
  · obtain ⟨d, hd⟩ := max_element_mem (counts_result env pp self).2.Ni
    exact ⟨d, by rw [hmN, hd]⟩

/-- C18, amended, at a concrete input: Scenario B with `L_full = 4` has `max_N = 16`,
`max_N_full = 32` and `2 ≤ L ≤ 4`. -/
theorem C18_witness :
    ∃ sg r, resolve_counts sample_env (pp_reflective_N1_full 32 ["L_full"] 4) blank =
        Except.ok sg ∧
      read_params sample_env (pp_reflective_N1_full 32 ["L_full"] 4) blank = Except.ok r ∧
      max_N sg.1 = 16 ∧ max_N_full sg.2 = 32 ∧ (4 : ℚ) / 2 ≤ r.L ∧ r.L ≤ 4 := by
  have h := C18_length_bounds sample_env (pp_reflective_N1_full 32 ["L_full"] 4) blank _ _
    (resolve_counts_ok _ _ _ (by decide)) (read_params_ok _ _ _ (by decide)) (by decide)
    (by show (0 : ℚ) < 4; norm_num)
  exact ⟨_, _, resolve_counts_ok _ _ _ (by decide), read_params_ok _ _ _ (by decide),
    by decide, by decide, h.2.2.1, h.2.2.2.1⟩


/-- C19, the code at the failing input: every axis non-periodic with a reflective low
side and `L_full = 4`.  With `N = 8` the code resolves `max_N_full = 8`, `L = 4` and
`coarsest_dx = 1/2`; with the equivalent `N_full = 16` it resolves `max_N_full = 16`,
`L = 2` and `coarsest_dx = 1/4`, although both give the half-domain count 8 on every
axis. -/
theorem C19_half_and_full_count_differ :
    ∃ sg1 r1 sg2 r2,
      resolve_counts sample_env (pp_all_reflective "N" 8) blank = Except.ok sg1 ∧
      read_params sample_env (pp_all_reflective "N" 8) blank = Except.ok r1 ∧
      resolve_counts sample_env (pp_all_reflective "N_full" 16) blank = Except.ok sg2 ∧
      read_params sample_env (pp_all_reflective "N_full" 16) blank = Except.ok r2 ∧
      (∀ axis, reflective_axis sample_env (pp_all_reflective "N" 8) axis ∧
        sg1.2.Ni axis = 8 ∧ sg2.2.Ni axis = 8) ∧
      max_N_full sg1.2 = 8 ∧ max_N_full sg2.2 = 16 ∧
      r1.L = 4 ∧ r2.L = 2 ∧ r1.coarsest_dx = 1 / 2 ∧ r2.coarsest_dx = 1 / 4 := by
  have hv1 : params_valid sample_env (pp_all_reflective "N" 8) := by decide
  have hv2 : params_valid sample_env (pp_all_reflective "N_full" 16) := by decide
  have hm1 : max_N (counts_result sample_env (pp_all_reflective "N" 8) blank).1 = 8 := by
    decide
  have hm2 : max_N (counts_result sample_env (pp_all_reflective "N_full" 16) blank).1 = 8 := by
    decide
  have hM1 : max_N_full (counts_result sample_env (pp_all_reflective "N" 8) blank).2 = 8 := by
    decide
  have hM2 : max_N_full (counts_result sample_env (pp_all_reflective "N_full" 16) blank).2
      = 16 := by
    decide
  have hc1 : (pp_all_reflective "N" 8).contains "L_full" = true := by decide
  have hc2 : (pp_all_reflective "N_full" 16).contains "L_full" = true := by decide
  have hf1 : (pp_all_reflective "N" 8).getReal "L_full" = 4 := rfl
  have hf2 : (pp_all_reflective "N_full" 16).getReal "L_full" = 4 := rfl
  have hL1 : (params_result sample_env (pp_all_reflective "N" 8) blank).L = 4 := by
    rw [params_result_L, hm1, hM1]
    simp [grid_L_value, hc1, hf1]
  have hL2 : (params_result sample_env (pp_all_reflective "N_full" 16) blank).L = 2 := by
    rw [params_result_L, hm2, hM2]
    simp [grid_L_value, hc2, hf2]
    norm_num
  refine ⟨_, _, _, _, resolve_counts_ok _ _ _ hv1.1, read_params_ok _ _ _ hv1,
    resolve_counts_ok _ _ _ hv2.1, read_params_ok _ _ _ hv2, by decide, hM1, hM2, hL1, hL2,
    ?_, ?_⟩
  · rw [params_result_coarsest_dx, hL1, hm1]
    norm_num
  · rw [params_result_coarsest_dx, hL2, hm2]
    norm_num

/-- C20: on every successful resolution with the key `center` present, for every axis the
resolved center is the supplied component when neither side is reflective, 0 when the low
side is reflective, and `coarsest_dx × Ni[axis]` when only the high side is reflective.
The snapping loop reads only the boundary kinds, `coarsest_dx` and `Ni`: it gives the same
center whatever the periodicity flags are, and running it again on its own result changes
nothing. -/
theorem C20_supplied_center (env : Externals) (pp : GRParmParse)
    (self r : ChomboParameters) (sg : ChomboParameters × GridCounts)
    (hc : resolve_counts env pp self = Except.ok sg)
    (hr : read_params env pp self = Except.ok r)
    (hcen : pp.contains "center" = true) :
    (∀ axis, r.center axis =
      if lo_kind env pp axis = env.REFLECTIVE_BC then 0
      else if hi_kind env pp axis = env.REFLECTIVE_BC then
        r.coarsest_dx * (sg.2.Ni axis : ℚ)
      else pp.getRealDim "center" axis) ∧
    (∀ (s : ChomboParameters) (p q : Fin CH_SPACEDIM → Bool),
      (FOR1 (center_body env sg.2.Ni)
        { s with isPeriodic := p
                 boundary_params := { s.boundary_params with is_periodic := q } }).center =
      (FOR1 (center_body env sg.2.Ni) s).center) ∧
    (∀ s : ChomboParameters,
      FOR1 (center_body env sg.2.Ni) (FOR1 (center_body env sg.2.Ni) s) =
        FOR1 (center_body env sg.2.Ni) s) ∧
    FOR1 (center_body env sg.2.Ni) r = r := by
  obtain ⟨_, rfl⟩ := resolve_counts_ok_inv env pp self _ hc
  obtain ⟨_, rfl⟩ := read_params_ok_inv env pp self _ hr
  have hcenter : ∀ axis, (params_result env pp self).center axis =
      if lo_kind env pp axis = env.REFLECTIVE_BC then 0
      else if hi_kind env pp axis = env.REFLECTIVE_BC then
        (params_result env pp self).coarsest_dx * ((counts_result env pp self).2.Ni axis : ℚ)
      else pp.getRealDim "center" axis := by
    intro axis
    rw [params_result_center]
    simp [GRParmParse.load_or, hcen]
  refine ⟨hcenter, ?_, ?_, ?_⟩
  · intro s p q
    rw [center_loop_eq, center_loop_eq]
    rfl
  · intro s
    exact center_loop_idem env _ s
  · rw [center_loop_eq]
    have : (fun d => center_cell env (counts_result env pp self).2.Ni d
        (params_result env pp self)) = (params_result env pp self).center := by
      funext d
      unfold center_cell
      rw [params_result_boundary_params, counts_result_lo, counts_result_hi, hcenter d]
      split_ifs <;> rfl
    rw [this]

/-- C20 at a concrete input: Scenario B with the supplied center `(5, 6, 7)` resolves to
`center[0] = 0` on the reflective axis 0 and keeps `center[1] = 6` on the periodic
axis 1. -/
theorem C20_witness :
    ∃ r, read_params sample_env pp_reflective_with_center blank = Except.ok r ∧
      r.center 0 = 0 ∧ r.center 1 = 6 := by
  have h := (C20_supplied_center sample_env pp_reflective_with_center blank _ _
    (resolve_counts_ok _ _ _ (by decide)) (read_params_ok _ _ _ (by decide)) (by decide)).1
  refine ⟨_, read_params_ok _ _ _ (by decide), ?_, ?_⟩
  · rw [h 0, if_pos (by decide)]
  · rw [h 1, if_neg (by decide), if_neg (by decide)]
    rfl

end GRChombo
